import Mathlib

/-!
# Oculus sonar node: parameter reconciliation

A shallow embedding of `OculusSonarNode::set_config_callback`
(`src/oculus_ros2/src/oculus_sonar_node.cpp`, lines 211-427) and of the code it
calls, of the standby callbacks `publish_ping` and `handle_dummy` (lines
186-209) and of the helper `handleFeedbackForParam` of the later header,
followed by theorems about them.

Conventions of the embedding

* `uint8_t` fields are natural numbers; an assignment from the 64-bit
  `as_int()` value keeps the low eight bits (`% 256`).
* `double` fields hold finite values and are modelled by exact rationals;
  `==`, `>=` and `<=` are those of the rationals.
* A `rclcpp::Parameter` accessor of the wrong type throws; the loop over the
  parameters is therefore a fold in `Except`.
* The device session (`SonarDriver::request_ping_config`) is outside the
  repository and is a function parameter.
* The local `bool use_salinity;` (line 218) is declared without an
  initialiser; its value at loop entry is the parameter `use_salinity0`.
-/

namespace OculusRos2

/-! ## Data model -/

/-- Modelled from the spec: the six ping rate constants `pingRateNormal` ..
`pingRateStandby` named by the `switch` of lines 229-251; their declaration
(the `PingRateType` enumeration of the driver's `Oculus.h`) is not part of the
sources. -/
inductive PingRateType
  | pingRateNormal
  | pingRateHigh
  | pingRateHighest
  | pingRateLow
  | pingRateLowest
  | pingRateStandby
  deriving DecidableEq, Repr

/-- The fields of `SonarDriver::PingConfig` that the node reads or writes (the
list of `conversions.h`, lines 87-95). -/
structure PingConfig where
  masterMode : Nat
  pingRate : PingRateType
  networkSpeed : Nat
  gammaCorrection : Nat
  flags : Nat
  range : ℚ
  gainPercent : ℚ
  speedOfSound : ℚ
  salinity : ℚ
  deriving DecidableEq

/-- The value carried by a `rclcpp::Parameter`. -/
inductive ParameterValue
  | notSet
  | bool (b : Bool)
  | integer (i : Int)
  | double (d : ℚ)
  | string (s : String)
  deriving DecidableEq

/-- A `rclcpp::Parameter`: a name and a typed value. -/
structure Parameter where
  name : String
  value : ParameterValue
  deriving DecidableEq

/-- The exception thrown by a typed accessor applied to a value of another
type. -/
inductive ParameterTypeException
  | wrongType (name : String)
  deriving DecidableEq

/-- `rcl_interfaces::msg::SetParametersResult`. -/
structure SetParametersResult where
  successful : Bool
  reason : String
  deriving DecidableEq

/-- `param.as_int()`. -/
def Parameter.as_int (param : Parameter) : Except ParameterTypeException Int :=
  match param.value with
  | .integer i => .ok i
  | _ => .error (.wrongType param.name)

/-- `param.as_bool()`. -/
def Parameter.as_bool (param : Parameter) : Except ParameterTypeException Bool :=
  match param.value with
  | .bool b => .ok b
  | _ => .error (.wrongType param.name)

/-- `param.as_double()`. -/
def Parameter.as_double (param : Parameter) : Except ParameterTypeException ℚ :=
  match param.value with
  | .double d => .ok d
  | _ => .error (.wrongType param.name)

/-! ## The merge loop (lines 214-331) -/

/-- Conversion of the 64-bit `as_int()` value to a `uint8_t` field. -/
def toUInt8 (i : Int) : Nat := (i % 256).toNat

/-- Lines 229-251: the `switch` over the ping rate code. -/
def setPingRate (newConfig : PingConfig) (code : Int) : PingConfig :=
  if code = 0 then { newConfig with pingRate := .pingRateNormal }
  else if code = 1 then { newConfig with pingRate := .pingRateHigh }
  else if code = 2 then { newConfig with pingRate := .pingRateHighest }
  else if code = 3 then { newConfig with pingRate := .pingRateLow }
  else if code = 4 then { newConfig with pingRate := .pingRateLowest }
  else if code = 5 then { newConfig with pingRate := .pingRateStandby }
  else newConfig

/-- One iteration of the loop of lines 219-331 on the pair
`(newConfig, use_salinity)`. -/
def applyParameter (st : PingConfig × Bool) (param : Parameter) :
    Except ParameterTypeException (PingConfig × Bool) :=
  let newConfig := st.1
  let use_salinity := st.2
  if param.name = "frequency_mode" then do
    let v ← param.as_int
    pure ({ newConfig with masterMode := toUInt8 v }, use_salinity)
  else if param.name = "ping_rate" then do
    let v ← param.as_int
    pure (setPingRate newConfig v, use_salinity)
  else if param.name = "data_depth" then do
    let v ← param.as_int
    if v = 1 then pure ({ newConfig with flags := newConfig.flags ||| 0x02 }, use_salinity)
    else pure (newConfig, use_salinity)
  else if param.name = "nbeams" then do
    let v ← param.as_int
    if v = 1 then pure ({ newConfig with flags := newConfig.flags ||| 0x40 }, use_salinity)
    else pure (newConfig, use_salinity)
  else if param.name = "send_gain" then do
    let b ← param.as_bool
    if b then pure ({ newConfig with flags := newConfig.flags ||| 0x04 }, use_salinity)
    else pure (newConfig, use_salinity)
  else if param.name = "gain_assist" then do
    let b ← param.as_bool
    if b then pure ({ newConfig with flags := newConfig.flags ||| 0x10 }, use_salinity)
    else pure (newConfig, use_salinity)
  else if param.name = "range" then do
    let d ← param.as_double
    pure ({ newConfig with range := d }, use_salinity)
  else if param.name = "gamma_correction" then do
    let v ← param.as_int
    pure ({ newConfig with gammaCorrection := toUInt8 v }, use_salinity)
  else if param.name = "gain_percent" then do
    let d ← param.as_double
    pure ({ newConfig with gainPercent := d }, use_salinity)
  else if param.name = "use_salinity" then do
    let b ← param.as_bool
    if b then pure ({ newConfig with speedOfSound := 0 }, b)
    else pure (newConfig, b)
  else if param.name = "sound_speed" then do
    let d ← param.as_double
    if !use_salinity then
      if 1400 ≤ d ∧ d ≤ 1600 then pure ({ newConfig with speedOfSound := d }, use_salinity)
      else pure (newConfig, use_salinity)
    else pure (newConfig, use_salinity)
  else if param.name = "salinity" then do
    let d ← param.as_double
    pure ({ newConfig with salinity := d }, use_salinity)
  else pure (newConfig, use_salinity)

/-- Lines 214-216: the copy of `currentConfig` with `flags` reset to `0x09`. -/
def initialConfig (currentConfig : PingConfig) : PingConfig :=
  { currentConfig with flags := 0x09 }

/-- Lines 214-331: the loop, from the copy of `currentConfig` and the value
`use_salinity0` of the local flag at loop entry. -/
def mergeLoop (use_salinity0 : Bool) (currentConfig : PingConfig)
    (parameters : List Parameter) : Except ParameterTypeException (PingConfig × Bool) :=
  parameters.foldlM applyParameter (initialConfig currentConfig, use_salinity0)

/-- The configuration `newConfig` passed to `request_ping_config` (line 333). -/
def newConfigOf (use_salinity0 : Bool) (currentConfig : PingConfig)
    (parameters : List Parameter) : Except ParameterTypeException PingConfig :=
  (mergeLoop use_salinity0 currentConfig parameters).map Prod.fst

/-! ## Feedback validation (lines 356-426) -/

/-- The condition of lines 367, 374, 381 and 388,
`(a & m) ? 1 : 0 != (b & m) ? 1 : 0`. The conditional operator binds weaker
than `!=`, so the expression is `(a & m) ? 1 : ((0 != (b & m)) ? 1 : 0)`. -/
def flagCondition (a b m : Nat) : Nat :=
  if a &&& m ≠ 0 then 1 else (if 0 ≠ b &&& m then 1 else 0)

/-- The statement `result.reason.append(line)`. -/
def SetParametersResult.append (result : SetParametersResult) (line : String) :
    SetParametersResult :=
  { result with reason := result.reason ++ line }

/-- Lines 356-426: the result built from `newConfig` and `feedback`. -/
def validateFeedback (newConfig feedback : PingConfig) : SetParametersResult :=
  let result : SetParametersResult := { successful := true, reason := "" }
  let result := if newConfig.masterMode ≠ feedback.masterMode then
    result.append "Could not update frequency_mode.\n" else result
  let result := if flagCondition newConfig.flags feedback.flags 0x02 ≠ 0 then
    result.append "Could not update data_depth.\n" else result
  let result := if flagCondition newConfig.flags feedback.flags 0x04 ≠ 0 then
    result.append "Could not update send_gain.\n" else result
  let result := if flagCondition newConfig.flags feedback.flags 0x10 ≠ 0 then
    result.append "Could not update gain_assist.\n" else result
  let result := if flagCondition newConfig.flags feedback.flags 0x40 ≠ 0 then
    result.append "Could not update nbeams.\n" else result
  let result := if newConfig.range ≠ feedback.range then
    result.append "Could not update range.\n" else result
  let result := if newConfig.gammaCorrection ≠ feedback.gammaCorrection then
    result.append "Could not update gamma_correction.\n" else result
  let result := if newConfig.gainPercent ≠ feedback.gainPercent then
    result.append "Could not update gain_percent.\n" else result
  let result := if newConfig.speedOfSound ≠ feedback.speedOfSound then
    result.append "Could not update sound_speed.\n" else result
  let result := if newConfig.salinity ≠ feedback.salinity then
    result.append "Could not update salinity.\n" else result
  result

/-! ## The callback -/

/-- `OculusSonarNode::set_config_callback` (lines 211-427) as a state
transformer on the member `currentConfig`: the first component is
`currentConfig` after the call, the second the returned result or the exception
that left the call. -/
def set_config_callback (request_ping_config : PingConfig → PingConfig)
    (use_salinity0 : Bool) (currentConfig : PingConfig) (parameters : List Parameter) :
    PingConfig × Except ParameterTypeException SetParametersResult :=
  match newConfigOf use_salinity0 currentConfig parameters with
  | .error e => (currentConfig, .error e)
  | .ok newConfig =>
    let feedback := request_ping_config newConfig
    (feedback, .ok (validateFeedback newConfig feedback))

/-! ## Vocabulary of the statements -/

/-- The type that the branch of the loop for `name` reads its value with, if
the loop has a branch for `name`. -/
def wellTypedParameter (param : Parameter) : Bool :=
  if param.name = "frequency_mode" ∨ param.name = "ping_rate" ∨ param.name = "data_depth"
      ∨ param.name = "nbeams" ∨ param.name = "gamma_correction" then
    match param.value with
    | .integer _ => true
    | _ => false
  else if param.name = "send_gain" ∨ param.name = "gain_assist"
      ∨ param.name = "use_salinity" then
    match param.value with
    | .bool _ => true
    | _ => false
  else if param.name = "range" ∨ param.name = "gain_percent" ∨ param.name = "sound_speed"
      ∨ param.name = "salinity" then
    match param.value with
    | .double _ => true
    | _ => false
  else true

/-- Every entry of the delta carries the type its branch reads. -/
def wellTyped (parameters : List Parameter) : Prop :=
  ∀ param ∈ parameters, wellTypedParameter param = true

/-- The delta is a mapping: no option name occurs twice. -/
def distinctNames (parameters : List Parameter) : Prop :=
  (parameters.map Parameter.name).Nodup

/-- A configuration used in the examples: the node's declared defaults. -/
def exampleConfig : PingConfig :=
  { masterMode := 1, pingRate := .pingRateNormal, networkSpeed := 255, gammaCorrection := 127,
    flags := 0x09, range := 40, gainPercent := 50, speedOfSound := 0, salinity := 0 }

/-- The bit that the loop ORs into `flags` for this entry, `0` if none. -/
def flagBit (param : Parameter) : Nat :=
  if param = ⟨"data_depth", .integer 1⟩ then 0x02
  else if param = ⟨"nbeams", .integer 1⟩ then 0x40
  else if param = ⟨"send_gain", .bool true⟩ then 0x04
  else if param = ⟨"gain_assist", .bool true⟩ then 0x10
  else 0

/-- The lines of a text, read left to right: a line feed ends the line
accumulated (in reverse) in `acc`; characters after the last line feed form a
last line. -/
def splitLines : List Char → List Char → List String
  | acc, [] => if acc = [] then [] else [String.mk acc.reverse]
  | acc, c :: cs =>
    if c = '\n' then String.mk acc.reverse :: splitLines [] cs else splitLines (c :: acc) cs

/-- The lines of a reason text, without their line feeds. -/
def linesOf (s : String) : List String := splitLines [] s.data

/-- The lines that report the six scalar fields, in the order of the checks. -/
def scalarLines : List String :=
  ["Could not update frequency_mode.", "Could not update range.",
    "Could not update gamma_correction.", "Could not update gain_percent.",
    "Could not update sound_speed.", "Could not update salinity."]

/-- A text that is empty or ends in a line feed. -/
def Terminated (s : String) : Prop := s.data = [] ∨ ∃ a, s.data = a ++ ['\n']

/-- The requests that one call of the callback sends to the device session:
`request_ping_config` is called once, at line 333, after the loop has run to
its end; an exception in the loop leaves the function before that line. -/
def requestsSent (use_salinity0 : Bool) (currentConfig : PingConfig)
    (parameters : List Parameter) : List PingConfig :=
  match newConfigOf use_salinity0 currentConfig parameters with
  | .error _ => []
  | .ok newConfig => [newConfig]

/-- The entries whose relative order the merge depends on. -/
def isSalinityEntry (param : Parameter) : Bool :=
  decide (param.name = "use_salinity" ∨ param.name = "sound_speed")

/-- The OR of the flag bits of the entries of a delta. -/
def flagBits (parameters : List Parameter) : Nat :=
  (parameters.map flagBit).foldr (fun b acc => b ||| acc) 0

/-- The effect of one iteration of the loop on the pair
(`newConfig.speedOfSound`, local flag `use_salinity`): the branches of lines
308-325, the other branches leaving both as they are. -/
def soundStep (s : ℚ × Bool) (param : Parameter) : ℚ × Bool :=
  if param.name = "use_salinity" then
    match param.value with
    | .bool b => (if b then 0 else s.1, b)
    | _ => s
  else if param.name = "sound_speed" then
    match param.value with
    | .double d => if s.2 = false ∧ 1400 ≤ d ∧ d ≤ 1600 then (d, s.2) else s
    | _ => s
  else s

/-- A `sound_speed` entry whose value passes the test of line 320. -/
def inRangeSoundSpeed (param : Parameter) : Bool :=
  match param.value with
  | .double d => decide (param.name = "sound_speed" ∧ 1400 ≤ d ∧ d ≤ 1600)
  | _ => false

/-- An entry that can write `newConfig.speedOfSound`: `use_salinity = true`
(line 313) or a `sound_speed` whose value passes the test of line 320. -/
def writesSpeedOfSound (param : Parameter) : Bool :=
  decide (param = ⟨"use_salinity", .bool true⟩) || inRangeSoundSpeed param

/-! ## Standby control (lines 186-209) -/

/-- The ping mode of the sonar. -/
inductive SonarMode
  | Active
  | Standby
  deriving DecidableEq, Repr

/-- The mode commands of the device session. -/
inductive ModeCommand
  | standby
  | resume
  deriving DecidableEq, Repr

/-- What the two callbacks act on: the mode of the sonar, the mode commands
issued to the device session (oldest first) and the messages published on the
ping topic (oldest first). -/
structure Session (Ping : Type) where
  mode : SonarMode
  commands : List ModeCommand
  published : List Ping

/-- Modelled from the spec: `SonarDriver::standby()`, of the driver library that
is not part of the sources; an idempotent mode command that puts the sonar in
standby. -/
def Session.standby {Ping : Type} (s : Session Ping) : Session Ping :=
  { s with mode := .Standby, commands := s.commands ++ [.standby] }

/-- Modelled from the spec: `SonarDriver::resume()`, of the driver library that
is not part of the sources; an idempotent mode command that puts the sonar back
in active mode. -/
def Session.resume {Ping : Type} (s : Session Ping) : Session Ping :=
  { s with mode := .Active, commands := s.commands ++ [.resume] }

/-- `OculusSonarNode::publish_ping` (lines 186-199); `get_subscription_count()`
and the conversion `copy_to_ros` (`conversions.h`) are parameters. -/
def publish_ping {PingMessage Ping : Type} (copy_to_ros : PingMessage → Ping)
    (get_subscription_count : Nat) (ping : PingMessage) (s : Session Ping) : Session Ping :=
  if get_subscription_count = 0 then
    s.standby
  else
    { s with published := s.published ++ [copy_to_ros ping] }

/-- `OculusSonarNode::handle_dummy` (lines 201-209). -/
def handle_dummy {Ping : Type} (get_subscription_count : Nat) (s : Session Ping) :
    Session Ping :=
  if get_subscription_count > 0 then s.resume else s

/-! ## The feedback helper of the later header -/

/-- `OculusSonarNode::handleFeedbackForParam`
(`include/oculus_ros2/oculus_sonar_node.hpp`, lines 138-157); the last argument
has the default `""` in the declaration (line 104). -/
def handleFeedbackForParam {T : Type} [DecidableEq T] (result : SetParametersResult)
    (param : Parameter) (old_val new_val : T) (param_name : String)
    (param_name_to_display : String) : SetParametersResult :=
  if old_val ≠ new_val then
    let param_name_to_display_ :=
      if param_name_to_display = "" then param_name else param_name_to_display
    if param.name = param_name then
      { successful := false,
        reason := result.reason ++ ("Could not update " ++ param_name_to_display_ ++ ".\n") }
    else
      { result with reason := result.reason ++ (param_name_to_display_ ++ " change.\n") }
  else result

/-! ## Lemmas on one iteration of the loop -/

theorem optionName_cases (n : String) :
    n = "frequency_mode" ∨ n = "ping_rate" ∨ n = "data_depth" ∨ n = "nbeams" ∨
    n = "send_gain" ∨ n = "gain_assist" ∨ n = "range" ∨ n = "gamma_correction" ∨
    n = "gain_percent" ∨ n = "use_salinity" ∨ n = "sound_speed" ∨ n = "salinity" ∨
    (n ≠ "frequency_mode" ∧ n ≠ "ping_rate" ∧ n ≠ "data_depth" ∧ n ≠ "nbeams" ∧
      n ≠ "send_gain" ∧ n ≠ "gain_assist" ∧ n ≠ "range" ∧ n ≠ "gamma_correction" ∧
      n ≠ "gain_percent" ∧ n ≠ "use_salinity" ∧ n ≠ "sound_speed" ∧ n ≠ "salinity") := by
  tauto

theorem applyParameter_unknown (st : PingConfig × Bool) (n : String) (v : ParameterValue)
    (h : n ≠ "frequency_mode" ∧ n ≠ "ping_rate" ∧ n ≠ "data_depth" ∧ n ≠ "nbeams" ∧
      n ≠ "send_gain" ∧ n ≠ "gain_assist" ∧ n ≠ "range" ∧ n ≠ "gamma_correction" ∧
      n ≠ "gain_percent" ∧ n ≠ "use_salinity" ∧ n ≠ "sound_speed" ∧ n ≠ "salinity") :
    applyParameter st ⟨n, v⟩ = .ok st := by
  obtain ⟨h1, h2, h3, h4, h5, h6, h7, h8, h9, h10, h11, h12⟩ := h
  simp only [applyParameter, h1, h2, h3, h4, h5, h6, h7, h8, h9, h10, h11, h12, if_false]
  rfl

theorem applyParameter_total (st : PingConfig × Bool) (p : Parameter)
    (h : wellTypedParameter p = true) : ∃ st', applyParameter st p = .ok st' := by
  obtain ⟨n, v⟩ := p
  rcases optionName_cases n with h1 | h1 | h1 | h1 | h1 | h1 | h1 | h1 | h1 | h1 | h1 | h1 | h1
  case inr.inr.inr.inr.inr.inr.inr.inr.inr.inr.inr.inr =>
    exact ⟨st, applyParameter_unknown st n v h1⟩
  all_goals
    subst h1
    cases v <;> simp [wellTypedParameter] at h
    simp only [applyParameter, Parameter.as_int, Parameter.as_bool, Parameter.as_double, bind,
      Except.bind, pure, Except.pure]
    simp only [String.reduceEq, if_false, if_true]
    try split_ifs
    all_goals exact ⟨_, rfl⟩

theorem setPingRate_flags (c : PingConfig) (i : Int) : (setPingRate c i).flags = c.flags := by
  unfold setPingRate
  split_ifs <;> rfl

theorem setPingRate_speedOfSound (c : PingConfig) (i : Int) :
    (setPingRate c i).speedOfSound = c.speedOfSound := by
  unfold setPingRate
  split_ifs <;> rfl

theorem applyParameter_flags (st st' : PingConfig × Bool) (p : Parameter)
    (h : applyParameter st p = .ok st') : st'.1.flags = st.1.flags ||| flagBit p := by
  obtain ⟨n, v⟩ := p
  rcases optionName_cases n with h1 | h1 | h1 | h1 | h1 | h1 | h1 | h1 | h1 | h1 | h1 | h1 | h1
  case inr.inr.inr.inr.inr.inr.inr.inr.inr.inr.inr.inr =>
    rw [applyParameter_unknown st n v h1] at h
    obtain ⟨h1, h2, h3, h4, h5, h6, h7, h8, h9, h10, h11, h12⟩ := h1
    cases h
    simp [flagBit, h3, h4, h5, h6]
  all_goals
    subst h1
    cases v <;>
    simp [applyParameter, Parameter.as_int, Parameter.as_bool, Parameter.as_double, bind,
      Except.bind, pure, Except.pure, flagBit] at h ⊢
  all_goals (try split_ifs at h) <;> (try simp only [Except.ok.injEq] at h) <;> subst h <;>
    simp_all [setPingRate_flags]

/-- Entries other than `use_salinity` and `sound_speed` leave `speedOfSound` and
the local flag as they are. -/
theorem applyParameter_sound_other (st st' : PingConfig × Bool) (p : Parameter)
    (h : applyParameter st p = .ok st') (hu : p.name ≠ "use_salinity")
    (hs : p.name ≠ "sound_speed") :
    st'.1.speedOfSound = st.1.speedOfSound ∧ st'.2 = st.2 := by
  obtain ⟨n, v⟩ := p
  rcases optionName_cases n with h1 | h1 | h1 | h1 | h1 | h1 | h1 | h1 | h1 | h1 | h1 | h1 | h1
  case inr.inr.inr.inr.inr.inr.inr.inr.inr.inr.inr.inr =>
    rw [applyParameter_unknown st n v h1] at h
    cases h
    exact ⟨rfl, rfl⟩
  all_goals
    subst h1
    cases v <;>
    simp [applyParameter, Parameter.as_int, Parameter.as_bool, Parameter.as_double, bind,
      Except.bind, pure, Except.pure] at h hu hs ⊢
  all_goals (try split_ifs at h) <;> (try simp only [Except.ok.injEq] at h) <;> subst h <;>
    simp_all [setPingRate_speedOfSound]

theorem applyParameter_use_salinity (st : PingConfig × Bool) (b : Bool) :
    applyParameter st ⟨"use_salinity", .bool b⟩ =
      .ok (if b then { st.1 with speedOfSound := 0 } else st.1, b) := by
  cases b <;> rfl

theorem applyParameter_sound_speed (st : PingConfig × Bool) (d : ℚ) :
    applyParameter st ⟨"sound_speed", .double d⟩ =
      .ok (if st.2 = false ∧ 1400 ≤ d ∧ d ≤ 1600 then ({ st.1 with speedOfSound := d }, st.2)
        else st) := by
  obtain ⟨cfg, us⟩ := st
  simp only [applyParameter, Parameter.as_double, bind, Except.bind, pure, Except.pure,
    String.reduceEq, if_false, if_true]
  by_cases h1 : us = false <;> by_cases h2 : 1400 ≤ d ∧ d ≤ 1600 <;> simp [h1, h2]

/-- With the local flag set, a `sound_speed` entry changes nothing. -/
theorem applyParameter_sound_speed_flag_set (st st' : PingConfig × Bool) (p : Parameter)
    (h : applyParameter st p = .ok st') (hs : p.name = "sound_speed") (hf : st.2 = true) :
    st' = st := by
  obtain ⟨n, v⟩ := p
  obtain ⟨cfg, us⟩ := st
  simp only at hs hf
  subst hs hf
  cases v <;>
    simp [applyParameter, Parameter.as_double, bind, Except.bind, pure, Except.pure] at h
  exact h.symm

/-! ## Lemmas on bit masks -/

theorem and_or_absorb (f m : Nat) : (f &&& m) ||| m = m := by
  apply Nat.eq_of_testBit_eq
  intro i
  rw [Nat.testBit_or, Nat.testBit_and]
  cases f.testBit i <;> cases m.testBit i <;> rfl

theorem or_and_mask (f b m : Nat) (hb : b = 0 ∨ b = 2 ∨ b = 4 ∨ b = 16 ∨ b = 64)
    (hm : m = 2 ∨ m = 4 ∨ m = 16 ∨ m = 64) :
    (f ||| b) &&& m = if b = m then m else f &&& m := by
  rw [Nat.and_distrib_right]
  rcases hb with rfl | rfl | rfl | rfl | rfl <;> rcases hm with rfl | rfl | rfl | rfl <;>
    first
      | exact and_or_absorb f _
      | (show (f &&& _) ||| 0 = _; rw [Nat.or_zero]; rfl)

theorem or_and_base (f b : Nat) (hb : b = 0 ∨ b = 2 ∨ b = 4 ∨ b = 16 ∨ b = 64) :
    (f ||| b) &&& 9 = f &&& 9 := by
  rw [Nat.and_distrib_right]
  rcases hb with rfl | rfl | rfl | rfl | rfl <;>
    (show (f &&& 9) ||| 0 = _; rw [Nat.or_zero])

theorem or_and_low (f : Nat) : (f ||| 0x40) &&& 0x3F = f &&& 0x3F := by
  rw [Nat.and_distrib_right]
  show (f &&& 0x3F) ||| 0 = _
  rw [Nat.or_zero]

theorem flagBit_cases (p : Parameter) :
    flagBit p = 0 ∨ flagBit p = 2 ∨ flagBit p = 4 ∨ flagBit p = 16 ∨ flagBit p = 64 := by
  unfold flagBit
  split_ifs <;> simp

theorem flagBit_eq_two (p : Parameter) : flagBit p = 2 ↔ p = ⟨"data_depth", .integer 1⟩ := by
  unfold flagBit
  split_ifs with h1 h2 h3 h4 <;> simp [*]

theorem flagBit_eq_sixtyfour (p : Parameter) :
    flagBit p = 64 ↔ p = ⟨"nbeams", .integer 1⟩ := by
  unfold flagBit
  split_ifs with h1 h2 h3 h4 <;> simp [*]

theorem flagBit_eq_four (p : Parameter) : flagBit p = 4 ↔ p = ⟨"send_gain", .bool true⟩ := by
  unfold flagBit
  split_ifs with h1 h2 h3 h4 <;> simp [*]

theorem flagBit_eq_sixteen (p : Parameter) :
    flagBit p = 16 ↔ p = ⟨"gain_assist", .bool true⟩ := by
  unfold flagBit
  split_ifs with h1 h2 h3 h4 <;> simp [*]

/-! ## Lemmas on the loop -/

theorem foldlM_cons_ok (st st' : PingConfig × Bool) (p : Parameter) (l : List Parameter)
    (h : (p :: l).foldlM applyParameter st = .ok st') :
    ∃ st1, applyParameter st p = .ok st1 ∧ l.foldlM applyParameter st1 = .ok st' := by
  rw [List.foldlM_cons] at h
  cases h1 : applyParameter st p with
  | error e => rw [h1] at h; cases h
  | ok st1 => rw [h1] at h; exact ⟨st1, rfl, h⟩

theorem foldlM_cons_of_ok (st st1 : PingConfig × Bool) (p : Parameter) (l : List Parameter)
    (h : applyParameter st p = .ok st1) :
    (p :: l).foldlM applyParameter st = l.foldlM applyParameter st1 := by
  rw [List.foldlM_cons, h]
  rfl

theorem foldlM_append_ok (l1 l2 : List Parameter) :
    ∀ (st st' : PingConfig × Bool), (l1 ++ l2).foldlM applyParameter st = .ok st' →
      ∃ st1, l1.foldlM applyParameter st = .ok st1 ∧ l2.foldlM applyParameter st1 = .ok st' := by
  induction l1 with
  | nil => intro st st' h; exact ⟨st, rfl, h⟩
  | cons p l ih =>
    intro st st' h
    obtain ⟨st1, h1, h2⟩ := foldlM_cons_ok st st' p (l ++ l2) h
    obtain ⟨st2, h3, h4⟩ := ih st1 st' h2
    exact ⟨st2, by rw [foldlM_cons_of_ok st st1 p l h1]; exact h3, h4⟩

theorem foldlM_append_of_ok (l1 l2 : List Parameter) :
    ∀ (st st1 : PingConfig × Bool), l1.foldlM applyParameter st = .ok st1 →
      (l1 ++ l2).foldlM applyParameter st = l2.foldlM applyParameter st1 := by
  induction l1 with
  | nil => intro st st1 h; cases h; rfl
  | cons p l ih =>
    intro st st1 h
    obtain ⟨st2, h1, h2⟩ := foldlM_cons_ok st st1 p l h
    rw [List.cons_append, foldlM_cons_of_ok st st2 p (l ++ l2) h1]
    exact ih st2 st1 h2

theorem foldlM_total (l : List Parameter) (hw : wellTyped l) :
    ∀ st : PingConfig × Bool, ∃ st', l.foldlM applyParameter st = .ok st' := by
  induction l with
  | nil => intro st; exact ⟨st, rfl⟩
  | cons p l ih =>
    intro st
    obtain ⟨st1, h1⟩ := applyParameter_total st p (hw p (List.mem_cons_self p l))
    obtain ⟨st', h2⟩ := ih (fun q hq => hw q (List.mem_cons_of_mem p hq)) st1
    exact ⟨st', by rw [foldlM_cons_of_ok st st1 p l h1]; exact h2⟩

theorem foldlM_invariant (P : PingConfig × Bool → Prop) (l : List Parameter)
    (hstep : ∀ p ∈ l, ∀ st st', P st → applyParameter st p = .ok st' → P st') :
    ∀ st st', P st → l.foldlM applyParameter st = .ok st' → P st' := by
  induction l with
  | nil => intro st st' h0 h; cases h; exact h0
  | cons p l ih =>
    intro st st' h0 h
    obtain ⟨st1, h1, h2⟩ := foldlM_cons_ok st st' p l h
    exact ih (fun q hq => hstep q (List.mem_cons_of_mem p hq)) st1 st'
      (hstep p (List.mem_cons_self p l) st st1 h0 h1) h2

/-- The bit `m` of the final flags: set by an entry of the list, or as it was. -/
theorem foldlM_flags_mask (m : Nat) (hm : m = 2 ∨ m = 4 ∨ m = 16 ∨ m = 64)
    (l : List Parameter) :
    ∀ st st', l.foldlM applyParameter st = .ok st' →
      st'.1.flags &&& m = if ∃ p ∈ l, flagBit p = m then m else st.1.flags &&& m := by
  induction l with
  | nil => intro st st' h; cases h; simp
  | cons p l ih =>
    intro st st' h
    obtain ⟨st1, h1, h2⟩ := foldlM_cons_ok st st' p l h
    rw [ih st1 st' h2, applyParameter_flags st st1 p h1,
      or_and_mask st.1.flags (flagBit p) m (flagBit_cases p) hm]
    by_cases hl : ∃ q ∈ l, flagBit q = m
    · have : ∃ q ∈ p :: l, flagBit q = m := by
        obtain ⟨q, hq, hq'⟩ := hl
        exact ⟨q, List.mem_cons_of_mem p hq, hq'⟩
      rw [if_pos hl, if_pos this]
    · rw [if_neg hl]
      by_cases hp : flagBit p = m
      · rw [if_pos hp, if_pos ⟨p, List.mem_cons_self p l, hp⟩]
      · have : ¬ ∃ q ∈ p :: l, flagBit q = m := by
          rintro ⟨q, hq, hq'⟩
          rcases List.mem_cons.mp hq with rfl | hq
          · exact hp hq'
          · exact hl ⟨q, hq, hq'⟩
        rw [if_neg hp, if_neg this]

theorem foldlM_flags_base (l : List Parameter) :
    ∀ st st', st.1.flags &&& 9 = 9 → l.foldlM applyParameter st = .ok st' →
      st'.1.flags &&& 9 = 9 :=
  foldlM_invariant (fun st => st.1.flags &&& 9 = 9) l (fun p _ st st' h0 h => by
    show st'.1.flags &&& 9 = 9
    rw [applyParameter_flags st st' p h, or_and_base _ _ (flagBit_cases p)]
    exact h0)

theorem foldlM_sound_other (l : List Parameter)
    (hl : ∀ p ∈ l, p.name ≠ "use_salinity" ∧ p.name ≠ "sound_speed") :
    ∀ st st', l.foldlM applyParameter st = .ok st' →
      st'.1.speedOfSound = st.1.speedOfSound ∧ st'.2 = st.2 := by
  intro st st' h
  exact foldlM_invariant
    (fun s => s.1.speedOfSound = st.1.speedOfSound ∧ s.2 = st.2) l
    (fun p hp s s' h0 hs => by
      obtain ⟨e1, e2⟩ := applyParameter_sound_other s s' p hs (hl p hp).1 (hl p hp).2
      exact ⟨e1.trans h0.1, e2.trans h0.2⟩) st st' ⟨rfl, rfl⟩ h

theorem foldlM_salinity_on (l : List Parameter) (hl : ∀ p ∈ l, p.name ≠ "use_salinity") :
    ∀ st st', st.2 = true → l.foldlM applyParameter st = .ok st' →
      st'.1.speedOfSound = st.1.speedOfSound ∧ st'.2 = true := by
  intro st st' hf h
  exact foldlM_invariant
    (fun s => s.1.speedOfSound = st.1.speedOfSound ∧ s.2 = true) l
    (fun p hp s s' h0 hs => by
      by_cases hn : p.name = "sound_speed"
      · rw [applyParameter_sound_speed_flag_set s s' p hs hn h0.2]
        exact h0
      · obtain ⟨e1, e2⟩ := applyParameter_sound_other s s' p hs (hl p hp) hn
        exact ⟨e1.trans h0.1, e2.trans h0.2⟩) st st' ⟨rfl, hf⟩ h

theorem newConfigOf_ok (u : Bool) (cur c : PingConfig) (ps : List Parameter) :
    newConfigOf u cur ps = .ok c ↔ ∃ b, mergeLoop u cur ps = .ok (c, b) := by
  unfold newConfigOf
  cases h : mergeLoop u cur ps with
  | error e => simp [Except.map]
  | ok st =>
    obtain ⟨c', b⟩ := st
    simp [Except.map]

theorem newConfigOf_total (u : Bool) (cur : PingConfig) (ps : List Parameter)
    (hw : wellTyped ps) : ∃ c, newConfigOf u cur ps = .ok c := by
  obtain ⟨st, h⟩ := foldlM_total ps hw (initialConfig cur, u)
  exact ⟨st.1, (newConfigOf_ok u cur st.1 ps).mpr ⟨st.2, h⟩⟩

/-! ## Lemmas on the callback and on the reason text -/

theorem set_config_callback_of_ok (dev : PingConfig → PingConfig) (u : Bool)
    (cur c : PingConfig) (ps : List Parameter) (h : newConfigOf u cur ps = .ok c) :
    set_config_callback dev u cur ps = (dev c, .ok (validateFeedback c (dev c))) := by
  unfold set_config_callback
  rw [h]

theorem set_config_callback_ok (dev : PingConfig → PingConfig) (u : Bool)
    (cur : PingConfig) (ps : List Parameter) (r : SetParametersResult)
    (h : (set_config_callback dev u cur ps).2 = .ok r) :
    ∃ c, newConfigOf u cur ps = .ok c ∧ r = validateFeedback c (dev c) := by
  cases hc : newConfigOf u cur ps with
  | error e =>
    unfold set_config_callback at h
    rw [hc] at h
    cases h
  | ok c =>
    rw [set_config_callback_of_ok dev u cur c ps hc] at h
    cases h
    exact ⟨c, rfl, rfl⟩

theorem splitLines_append (a b acc : List Char) :
    splitLines acc (a ++ '\n' :: b) = splitLines acc (a ++ ['\n']) ++ splitLines [] b := by
  induction a generalizing acc with
  | nil => simp [splitLines]
  | cons c a ih =>
    by_cases hc : c = '\n'
    · simp [splitLines, hc, ih []]
    · simp [splitLines, hc, ih (c :: acc)]

theorem linesOf_append (t l : String) (ht : Terminated t) :
    linesOf (t ++ l) = linesOf t ++ linesOf l := by
  rcases ht with h | ⟨a, h⟩
  · simp [linesOf, String.data_append, h, splitLines]
  · simp only [linesOf, String.data_append, h, List.append_assoc, List.singleton_append]
    rw [splitLines_append]

theorem terminated_append (t l : String) (hl : ∃ a, l.data = a ++ ['\n']) :
    Terminated (t ++ l) := by
  obtain ⟨a, ha⟩ := hl
  exact Or.inr ⟨t.data ++ a, by simp [String.data_append, ha]⟩

/-- One check of the validation: the text stays terminated, gains the line
exactly when the condition holds, and `successful` is not written. -/
theorem check_lines (c : Prop) [Decidable c] (r : SetParametersResult) (line text : String)
    (hr : Terminated r.reason) (hl : ∃ a, text.data = a ++ ['\n'])
    (hlines : linesOf text = [line]) :
    Terminated (if c then r.append text else r).reason ∧
      linesOf (if c then r.append text else r).reason
        = linesOf r.reason ++ (if c then [line] else []) ∧
      (if c then r.append text else r).successful = r.successful := by
  by_cases hc : c
  · rw [if_pos hc, if_pos hc]
    exact ⟨terminated_append _ _ hl, by
      show linesOf (r.reason ++ text) = _
      rw [linesOf_append _ _ hr, hlines], rfl⟩
  · rw [if_neg hc, if_neg hc]
    exact ⟨hr, by simp, rfl⟩

/-- The lines of the reason text, check by check, and the value of
`successful`. -/
theorem validateFeedback_lines (c fb : PingConfig) :
    linesOf (validateFeedback c fb).reason =
      (if c.masterMode ≠ fb.masterMode then ["Could not update frequency_mode."] else []) ++
      (if flagCondition c.flags fb.flags 0x02 ≠ 0 then ["Could not update data_depth."]
        else []) ++
      (if flagCondition c.flags fb.flags 0x04 ≠ 0 then ["Could not update send_gain."]
        else []) ++
      (if flagCondition c.flags fb.flags 0x10 ≠ 0 then ["Could not update gain_assist."]
        else []) ++
      (if flagCondition c.flags fb.flags 0x40 ≠ 0 then ["Could not update nbeams."] else []) ++
      (if c.range ≠ fb.range then ["Could not update range."] else []) ++
      (if c.gammaCorrection ≠ fb.gammaCorrection then ["Could not update gamma_correction."]
        else []) ++
      (if c.gainPercent ≠ fb.gainPercent then ["Could not update gain_percent."] else []) ++
      (if c.speedOfSound ≠ fb.speedOfSound then ["Could not update sound_speed."] else []) ++
      (if c.salinity ≠ fb.salinity then ["Could not update salinity."] else []) ∧
    (validateFeedback c fb).successful = true := by
  have h0 : Terminated (SetParametersResult.mk true "").reason := Or.inl rfl
  have h1 := check_lines (c.masterMode ≠ fb.masterMode) _ "Could not update frequency_mode."
    "Could not update frequency_mode.\n" h0 ⟨"Could not update frequency_mode.".data, rfl⟩ rfl
  have h2 := check_lines (flagCondition c.flags fb.flags 0x02 ≠ 0) _
    "Could not update data_depth."
    "Could not update data_depth.\n" h1.1 ⟨"Could not update data_depth.".data, rfl⟩ rfl
  have h3 := check_lines (flagCondition c.flags fb.flags 0x04 ≠ 0) _
    "Could not update send_gain."
    "Could not update send_gain.\n" h2.1 ⟨"Could not update send_gain.".data, rfl⟩ rfl
  have h4 := check_lines (flagCondition c.flags fb.flags 0x10 ≠ 0) _
    "Could not update gain_assist."
    "Could not update gain_assist.\n" h3.1 ⟨"Could not update gain_assist.".data, rfl⟩ rfl
  have h5 := check_lines (flagCondition c.flags fb.flags 0x40 ≠ 0) _ "Could not update nbeams."
    "Could not update nbeams.\n" h4.1 ⟨"Could not update nbeams.".data, rfl⟩ rfl
  have h6 := check_lines (c.range ≠ fb.range) _ "Could not update range."
    "Could not update range.\n" h5.1 ⟨"Could not update range.".data, rfl⟩ rfl
  have h7 := check_lines (c.gammaCorrection ≠ fb.gammaCorrection) _
    "Could not update gamma_correction."
    "Could not update gamma_correction.\n" h6.1
    ⟨"Could not update gamma_correction.".data, rfl⟩ rfl
  have h8 := check_lines (c.gainPercent ≠ fb.gainPercent) _ "Could not update gain_percent."
    "Could not update gain_percent.\n" h7.1 ⟨"Could not update gain_percent.".data, rfl⟩ rfl
  have h9 := check_lines (c.speedOfSound ≠ fb.speedOfSound) _ "Could not update sound_speed."
    "Could not update sound_speed.\n" h8.1 ⟨"Could not update sound_speed.".data, rfl⟩ rfl
  have h10 := check_lines (c.salinity ≠ fb.salinity) _ "Could not update salinity."
    "Could not update salinity.\n" h9.1 ⟨"Could not update salinity.".data, rfl⟩ rfl
  constructor
  · show linesOf (if c.salinity ≠ fb.salinity then SetParametersResult.append _ _ else _).reason
      = _
    rw [h10.2.1, h9.2.1, h8.2.1, h7.2.1, h6.2.1, h5.2.1, h4.2.1, h3.2.1, h2.2.1, h1.2.1]
    rfl
  · show (if c.salinity ≠ fb.salinity then SetParametersResult.append _ _ else _).successful
      = _
    rw [h10.2.2, h9.2.2, h8.2.2, h7.2.2, h6.2.2, h5.2.2, h4.2.2, h3.2.2, h2.2.2, h1.2.2]

theorem filter_check (q : String → Bool) (c : Prop) [Decidable c] (x : String) :
    List.filter q (if c then [x] else []) = if c then (if q x then [x] else []) else [] := by
  by_cases hc : c
  · rw [if_pos hc, if_pos hc]
    cases hq : q x <;> simp [hq]
  · rw [if_neg hc, if_neg hc]
    rfl

theorem count_check (y : String) (c : Prop) [Decidable c] (x : String) :
    List.count y (if c then [x] else []) = if c then (if x = y then 1 else 0) else 0 := by
  by_cases hc : c
  · rw [if_pos hc, if_pos hc]
    by_cases hxy : x = y <;> simp [List.count_cons, hxy]
  · rw [if_neg hc, if_neg hc]
    rfl

theorem flagCondition_ne_zero (a b m : Nat) :
    flagCondition a b m ≠ 0 ↔ (a &&& m ≠ 0 ∨ b &&& m ≠ 0) := by
  unfold flagCondition
  by_cases ha : a &&& m = 0 <;> by_cases hb : b &&& m = 0 <;> simp [ha, hb, eq_comm]

/-! ## Lemmas on deltas with distinct names -/

theorem distinctNames_middle (l1 l2 : List Parameter) (a : Parameter)
    (h : distinctNames (l1 ++ a :: l2)) :
    (∀ p ∈ l1, p.name ≠ a.name) ∧ (∀ p ∈ l2, p.name ≠ a.name) ∧ distinctNames (l1 ++ l2) := by
  unfold distinctNames at h ⊢
  rw [List.map_append, List.map_cons, List.nodup_middle, List.nodup_cons, ← List.map_append] at h
  obtain ⟨h1, h2⟩ := h
  refine ⟨fun p hp e => h1 ?_, fun p hp e => h1 ?_, h2⟩
  · rw [← e]
    exact List.mem_map_of_mem _ (List.mem_append_left _ hp)
  · rw [← e]
    exact List.mem_map_of_mem _ (List.mem_append_right _ hp)

theorem distinctNames_eq (ps : List Parameter) (h : distinctNames ps) (p q : Parameter)
    (hp : p ∈ ps) (hq : q ∈ ps) (e : p.name = q.name) : p = q :=
  List.inj_on_of_nodup_map h hp hq e

/-! ## The claims -/

/-- Claim C1: whenever the callback returns, `currentConfig` is the feedback that the
device session returned for the submitted configuration, whatever that feedback
is; the callback returns for every well-typed delta. -/
theorem C1_current_config_is_feedback (request_ping_config : PingConfig → PingConfig)
    (use_salinity0 : Bool) (currentConfig : PingConfig) (parameters : List Parameter) :
    (wellTyped parameters → ∃ result,
      (set_config_callback request_ping_config use_salinity0 currentConfig parameters).2
        = .ok result) ∧
    (∀ result,
      (set_config_callback request_ping_config use_salinity0 currentConfig parameters).2
        = .ok result →
      ∃ newConfig, newConfigOf use_salinity0 currentConfig parameters = .ok newConfig ∧
        (set_config_callback request_ping_config use_salinity0 currentConfig parameters).1
          = request_ping_config newConfig) := by
  constructor
  · intro hw
    obtain ⟨c, hc⟩ := newConfigOf_total use_salinity0 currentConfig parameters hw
    exact ⟨_, by rw [set_config_callback_of_ok request_ping_config _ _ c _ hc]⟩
  · intro result h
    obtain ⟨c, hc, _⟩ := set_config_callback_ok request_ping_config _ _ _ result h
    exact ⟨c, hc, by rw [set_config_callback_of_ok request_ping_config _ _ c _ hc]⟩

/-- Witness of claim C1: the scenario delta with a device that answers
`masterMode = 1`. -/
theorem C1_current_config_is_feedback_witness :
    (∃ result,
      (set_config_callback (fun c => { c with masterMode := 1 }) false exampleConfig
        [⟨"frequency_mode", .integer 2⟩, ⟨"range", .double 10⟩,
          ⟨"gamma_correction", .integer 200⟩]).2 = .ok result) ∧
    (∃ newConfig, newConfigOf false exampleConfig
        [⟨"frequency_mode", .integer 2⟩, ⟨"range", .double 10⟩,
          ⟨"gamma_correction", .integer 200⟩] = .ok newConfig ∧
      (set_config_callback (fun c => { c with masterMode := 1 }) false exampleConfig
        [⟨"frequency_mode", .integer 2⟩, ⟨"range", .double 10⟩,
          ⟨"gamma_correction", .integer 200⟩]).1
        = (fun c => { c with masterMode := 1 }) newConfig) :=
  ⟨(C1_current_config_is_feedback (fun c => { c with masterMode := 1 }) false exampleConfig
      [⟨"frequency_mode", .integer 2⟩, ⟨"range", .double 10⟩,
        ⟨"gamma_correction", .integer 200⟩]).1 (by simp [wellTyped, wellTypedParameter]),
   (C1_current_config_is_feedback (fun c => { c with masterMode := 1 }) false exampleConfig
      [⟨"frequency_mode", .integer 2⟩, ⟨"range", .double 10⟩,
        ⟨"gamma_correction", .integer 200⟩]).2
      ⟨true, "Could not update frequency_mode.\n"⟩ rfl⟩

/-- Claim C2 (evaluation of the code): with a device that echoes the submitted
configuration unchanged, a delta that sets the four flag options is answered
with one failure line per option, although every bit agrees; in general the
condition written in the code holds as soon as the bit is set on either side. -/
theorem C2_agreeing_set_bits_are_reported :
    set_config_callback id false exampleConfig
        [⟨"data_depth", .integer 1⟩, ⟨"send_gain", .bool true⟩, ⟨"gain_assist", .bool true⟩,
          ⟨"nbeams", .integer 1⟩]
      = ({ exampleConfig with flags := 0x5F },
          .ok ⟨true, "Could not update data_depth.\nCould not update send_gain.\nCould not update gain_assist.\nCould not update nbeams.\n"⟩) ∧
    (∀ a b m : Nat, flagCondition a b m ≠ 0 ↔ (a &&& m ≠ 0 ∨ b &&& m ≠ 0)) :=
  ⟨rfl, flagCondition_ne_zero⟩

/-- Claim C3: the lines of the reason text that name one of the six scalar fields are
exactly the lines of the fields whose values differ, each once, in the order
frequency_mode, range, gamma_correction, gain_percent, sound_speed, salinity;
the scenario delta answered with `masterMode = 1` yields the single line for
frequency_mode, and a delta with only `range = v` submits `range = v`. -/
theorem C3_scalar_fields_reported_once_in_order (newConfig feedback currentConfig : PingConfig)
    (use_salinity0 : Bool) (v : ℚ) :
    (linesOf (validateFeedback newConfig feedback).reason).filter
        (fun l => decide (l ∈ scalarLines)) =
      (if newConfig.masterMode ≠ feedback.masterMode
        then ["Could not update frequency_mode."] else []) ++
      (if newConfig.range ≠ feedback.range then ["Could not update range."] else []) ++
      (if newConfig.gammaCorrection ≠ feedback.gammaCorrection
        then ["Could not update gamma_correction."] else []) ++
      (if newConfig.gainPercent ≠ feedback.gainPercent
        then ["Could not update gain_percent."] else []) ++
      (if newConfig.speedOfSound ≠ feedback.speedOfSound
        then ["Could not update sound_speed."] else []) ++
      (if newConfig.salinity ≠ feedback.salinity then ["Could not update salinity."] else []) ∧
    (linesOf (validateFeedback newConfig feedback).reason).count
        "Could not update frequency_mode." =
      (if newConfig.masterMode ≠ feedback.masterMode then 1 else 0) ∧
    (linesOf (validateFeedback newConfig feedback).reason).count "Could not update range." =
      (if newConfig.range ≠ feedback.range then 1 else 0) ∧
    (linesOf (validateFeedback newConfig feedback).reason).count
        "Could not update gamma_correction." =
      (if newConfig.gammaCorrection ≠ feedback.gammaCorrection then 1 else 0) ∧
    (linesOf (validateFeedback newConfig feedback).reason).count
        "Could not update gain_percent." =
      (if newConfig.gainPercent ≠ feedback.gainPercent then 1 else 0) ∧
    (linesOf (validateFeedback newConfig feedback).reason).count
        "Could not update sound_speed." =
      (if newConfig.speedOfSound ≠ feedback.speedOfSound then 1 else 0) ∧
    (linesOf (validateFeedback newConfig feedback).reason).count "Could not update salinity." =
      (if newConfig.salinity ≠ feedback.salinity then 1 else 0) ∧
    (set_config_callback (fun c => { c with masterMode := 1 }) use_salinity0 currentConfig
        [⟨"frequency_mode", .integer 2⟩, ⟨"range", .double 10⟩,
          ⟨"gamma_correction", .integer 200⟩]).2
      = .ok ⟨true, "Could not update frequency_mode.\n"⟩ ∧
    (newConfigOf use_salinity0 currentConfig [⟨"range", .double v⟩]).map (fun c => c.range)
      = .ok v := by
  have hl := (validateFeedback_lines newConfig feedback).1
  refine ⟨?_, ?_, ?_, ?_, ?_, ?_, ?_, ?_, rfl⟩
  · rw [hl]
    simp only [List.filter_append, filter_check, scalarLines]
    simp
  · rw [hl]
    simp only [List.count_append, count_check]
    simp
  · rw [hl]
    simp only [List.count_append, count_check]
    simp
  · rw [hl]
    simp only [List.count_append, count_check]
    simp
  · rw [hl]
    simp only [List.count_append, count_check]
    simp
  · rw [hl]
    simp only [List.count_append, count_check]
    simp
  · rw [hl]
    simp only [List.count_append, count_check]
    simp
  · have hc : newConfigOf use_salinity0 currentConfig
        [⟨"frequency_mode", .integer 2⟩, ⟨"range", .double 10⟩,
          ⟨"gamma_correction", .integer 200⟩]
        = .ok { initialConfig currentConfig with
            masterMode := 2, range := 10, gammaCorrection := 200 } := rfl
    rw [set_config_callback_of_ok _ _ _ _ _ hc]
    have f2 : flagCondition 9 9 2 = 0 := by decide
    have f4 : flagCondition 9 9 4 = 0 := by decide
    have f16 : flagCondition 9 9 16 = 0 := by decide
    have f64 : flagCondition 9 9 64 = 0 := by decide
    simp [validateFeedback, initialConfig, SetParametersResult.append, f2, f4, f16, f64]

/-- Claim C4: for every well-typed delta the callback returns a result, and every
result it returns has `successful = true`, whatever the feedback. -/
theorem C4_successful_is_always_true (request_ping_config : PingConfig → PingConfig)
    (use_salinity0 : Bool) (currentConfig : PingConfig) (parameters : List Parameter) :
    (wellTyped parameters → ∃ result,
      (set_config_callback request_ping_config use_salinity0 currentConfig parameters).2
        = .ok result ∧ result.successful = true) ∧
    (∀ result,
      (set_config_callback request_ping_config use_salinity0 currentConfig parameters).2
        = .ok result → result.successful = true) := by
  have key : ∀ result,
      (set_config_callback request_ping_config use_salinity0 currentConfig parameters).2
        = .ok result → result.successful = true := by
    intro result h
    obtain ⟨c, _, hr⟩ := set_config_callback_ok request_ping_config _ _ _ result h
    rw [hr]
    exact (validateFeedback_lines c (request_ping_config c)).2
  constructor
  · intro hw
    obtain ⟨c, hc⟩ := newConfigOf_total use_salinity0 currentConfig parameters hw
    have h : (set_config_callback request_ping_config use_salinity0 currentConfig parameters).2
        = .ok (validateFeedback c (request_ping_config c)) := by
      rw [set_config_callback_of_ok request_ping_config _ _ c _ hc]
    exact ⟨_, h, key _ h⟩
  · exact key

/-- Claim C5: for a well-typed delta with distinct names that contains
`use_salinity = true`, a configuration is submitted and its `speedOfSound` is
`0`, wherever a `sound_speed` entry stands and whatever the local flag held at
loop entry. -/
theorem C5_use_salinity_true_forces_zero (use_salinity0 : Bool) (currentConfig : PingConfig)
    (parameters : List Parameter) (hw : wellTyped parameters) (hd : distinctNames parameters)
    (hmem : ⟨"use_salinity", .bool true⟩ ∈ parameters) :
    ∃ newConfig, newConfigOf use_salinity0 currentConfig parameters = .ok newConfig ∧
      newConfig.speedOfSound = 0 := by
  obtain ⟨l1, l2, rfl⟩ := List.append_of_mem hmem
  obtain ⟨_, hl2, _⟩ := distinctNames_middle l1 l2 _ hd
  obtain ⟨st', h⟩ := foldlM_total _ hw (initialConfig currentConfig, use_salinity0)
  obtain ⟨st1, h1, h2⟩ := foldlM_append_ok l1 _ _ _ h
  obtain ⟨st2, h3, h4⟩ := foldlM_cons_ok _ _ _ _ h2
  rw [applyParameter_use_salinity] at h3
  cases h3
  obtain ⟨e1, _⟩ := foldlM_salinity_on l2 hl2 _ st' rfl h4
  exact ⟨st'.1, (newConfigOf_ok _ _ _ _).mpr ⟨st'.2, h⟩, e1⟩

/-- Claim C7 (evaluation of the code): a first call with only
`sound_speed = 1500` applies the value when the uninitialised local reads
false and leaves `speedOfSound` alone when it reads true; and a preceding call
with `use_salinity = false` has no effect on a later call, the flag not being
part of the state. -/
theorem C7_flag_is_an_uninitialised_local :
    (newConfigOf false exampleConfig [⟨"sound_speed", .double 1500⟩]).map
        (fun c => c.speedOfSound) = .ok 1500 ∧
    (newConfigOf true exampleConfig [⟨"sound_speed", .double 1500⟩]).map
        (fun c => c.speedOfSound) = .ok 0 ∧
    (newConfigOf true
        (set_config_callback id true exampleConfig [⟨"use_salinity", .bool false⟩]).1
        [⟨"sound_speed", .double 1500⟩]).map (fun c => c.speedOfSound) = .ok 0 :=
  ⟨rfl, rfl, rfl⟩

/-- Counterexample to claim C8: with the bits `0x04` and `0x10` set in
`currentConfig`, the delta `send_gain = false, gain_assist = false` submits
flags with both bits clear. -/
theorem C8_counterexample_flags_are_reset :
    ({ exampleConfig with flags := 0x1D } : PingConfig).flags &&& 0x04 = 0x04 ∧
    ({ exampleConfig with flags := 0x1D } : PingConfig).flags &&& 0x10 = 0x10 ∧
    (newConfigOf false { exampleConfig with flags := 0x1D }
        [⟨"send_gain", .bool false⟩, ⟨"gain_assist", .bool false⟩]).map
        (fun c => (c.flags &&& 0x04, c.flags &&& 0x10)) = .ok (0, 0) :=
  ⟨rfl, rfl, rfl⟩

/-- Claim C8, amended: the flags of the submitted configuration start from
`0x09` on every call, and for a well-typed delta with distinct names that
contains `send_gain = false` the bit `0x04` is clear in the submitted flags;
likewise `gain_assist = false` and the bit `0x10`. -/
theorem C8_false_flag_option_leaves_bit_clear (use_salinity0 : Bool)
    (currentConfig : PingConfig) (parameters : List Parameter) (hw : wellTyped parameters)
    (hd : distinctNames parameters) :
    (initialConfig currentConfig).flags = 0x09 ∧
    ∃ newConfig, newConfigOf use_salinity0 currentConfig parameters = .ok newConfig ∧
      (⟨"send_gain", .bool false⟩ ∈ parameters → newConfig.flags &&& 0x04 = 0) ∧
      (⟨"gain_assist", .bool false⟩ ∈ parameters → newConfig.flags &&& 0x10 = 0) := by
  obtain ⟨st', h⟩ := foldlM_total _ hw (initialConfig currentConfig, use_salinity0)
  refine ⟨rfl, st'.1, (newConfigOf_ok _ _ _ _).mpr ⟨st'.2, h⟩, ?_, ?_⟩
  · intro hmem
    rw [foldlM_flags_mask 4 (by decide) parameters _ _ h, if_neg]
    · show (9 : Nat) &&& 4 = 0
      decide
    · rintro ⟨p, hp, hb⟩
      rw [flagBit_eq_four] at hb
      subst hb
      have := distinctNames_eq parameters hd _ _ hp hmem rfl
      cases this
  · intro hmem
    rw [foldlM_flags_mask 16 (by decide) parameters _ _ h, if_neg]
    · show (9 : Nat) &&& 16 = 0
      decide
    · rintro ⟨p, hp, hb⟩
      rw [flagBit_eq_sixteen] at hb
      subst hb
      have := distinctNames_eq parameters hd _ _ hp hmem rfl
      cases this

/-- Claim C9: every configuration that the loop produces, for any delta, has
the bits `0x01` and `0x08` set; a configuration is produced for every
well-typed delta. -/
theorem C9_baseline_bits_always_set (use_salinity0 : Bool) (currentConfig : PingConfig)
    (parameters : List Parameter) :
    (wellTyped parameters →
      ∃ newConfig, newConfigOf use_salinity0 currentConfig parameters = .ok newConfig) ∧
    (∀ newConfig, newConfigOf use_salinity0 currentConfig parameters = .ok newConfig →
      newConfig.flags &&& 0x09 = 0x09) := by
  refine ⟨newConfigOf_total _ _ _, fun c hc => ?_⟩
  obtain ⟨b, h⟩ := (newConfigOf_ok _ _ _ _).mp hc
  exact foldlM_flags_base parameters (initialConfig currentConfig, use_salinity0) (c, b)
    (show (9 : Nat) &&& 9 = 9 by decide) h

/-- Claim C10: for a well-typed delta, the bit `0x02` of the submitted flags is
set exactly when the delta holds `data_depth = 1` and the bit `0x40` exactly
when it holds `nbeams = 1`; processing `nbeams = 1` ORs `0x40` into the flags
and leaves the six lower bits as they were. -/
theorem C10_flag_round_trip (use_salinity0 : Bool) (currentConfig : PingConfig)
    (parameters : List Parameter) (hw : wellTyped parameters) :
    (∃ newConfig, newConfigOf use_salinity0 currentConfig parameters = .ok newConfig ∧
      (newConfig.flags &&& 0x02 = 0x02 ↔ ⟨"data_depth", .integer 1⟩ ∈ parameters) ∧
      (newConfig.flags &&& 0x40 = 0x40 ↔ ⟨"nbeams", .integer 1⟩ ∈ parameters)) ∧
    (∀ st : PingConfig × Bool, ∃ st', applyParameter st ⟨"nbeams", .integer 1⟩ = .ok st' ∧
      st'.1.flags = st.1.flags ||| 0x40 ∧ st'.1.flags &&& 0x3F = st.1.flags &&& 0x3F) := by
  obtain ⟨st', h⟩ := foldlM_total _ hw (initialConfig currentConfig, use_salinity0)
  refine ⟨⟨st'.1, (newConfigOf_ok _ _ _ _).mpr ⟨st'.2, h⟩, ?_, ?_⟩, fun st => ?_⟩
  · rw [foldlM_flags_mask 2 (by decide) parameters _ _ h]
    constructor
    · intro hb
      by_cases he : ∃ p ∈ parameters, flagBit p = 2
      · obtain ⟨p, hp, hb'⟩ := he
        rw [flagBit_eq_two] at hb'
        exact hb' ▸ hp
      · rw [if_neg he] at hb
        exact absurd (show (9 : Nat) &&& 2 = 2 from hb) (by decide)
    · intro hmem
      rw [if_pos ⟨_, hmem, (flagBit_eq_two _).mpr rfl⟩]
  · rw [foldlM_flags_mask 64 (by decide) parameters _ _ h]
    constructor
    · intro hb
      by_cases he : ∃ p ∈ parameters, flagBit p = 64
      · obtain ⟨p, hp, hb'⟩ := he
        rw [flagBit_eq_sixtyfour] at hb'
        exact hb' ▸ hp
      · rw [if_neg he] at hb
        exact absurd (show (9 : Nat) &&& 64 = 64 from hb) (by decide)
    · intro hmem
      rw [if_pos ⟨_, hmem, (flagBit_eq_sixtyfour _).mpr rfl⟩]
  · exact ⟨({ st.1 with flags := st.1.flags ||| 0x40 }, st.2), rfl, rfl, or_and_low st.1.flags⟩

/-! ## Witnesses -/

/-- Witness of claim C4: the scenario delta, answered with `masterMode = 1`. -/
theorem C4_successful_is_always_true_witness :
    (∃ result,
      (set_config_callback (fun c => { c with masterMode := 1 }) false exampleConfig
        [⟨"frequency_mode", .integer 2⟩, ⟨"range", .double 10⟩,
          ⟨"gamma_correction", .integer 200⟩]).2 = .ok result ∧ result.successful = true) ∧
    (SetParametersResult.mk true "Could not update frequency_mode.\n").successful = true :=
  ⟨(C4_successful_is_always_true (fun c => { c with masterMode := 1 }) false exampleConfig
      [⟨"frequency_mode", .integer 2⟩, ⟨"range", .double 10⟩,
        ⟨"gamma_correction", .integer 200⟩]).1 (by simp [wellTyped, wellTypedParameter]),
   (C4_successful_is_always_true (fun c => { c with masterMode := 1 }) false exampleConfig
      [⟨"frequency_mode", .integer 2⟩, ⟨"range", .double 10⟩,
        ⟨"gamma_correction", .integer 200⟩]).2
      ⟨true, "Could not update frequency_mode.\n"⟩ rfl⟩

/-- Witness of claim C5: `sound_speed = 1500` processed before
`use_salinity = true`, with the local flag reading false at entry. -/
theorem C5_use_salinity_true_forces_zero_witness :
    wellTyped [⟨"sound_speed", .double 1500⟩, ⟨"use_salinity", .bool true⟩] ∧
    distinctNames [⟨"sound_speed", .double 1500⟩, ⟨"use_salinity", .bool true⟩] ∧
    ∃ newConfig,
      newConfigOf false { exampleConfig with speedOfSound := 1480 }
        [⟨"sound_speed", .double 1500⟩, ⟨"use_salinity", .bool true⟩] = .ok newConfig ∧
      newConfig.speedOfSound = 0 :=
  ⟨by simp [wellTyped, wellTypedParameter], by simp [distinctNames],
   C5_use_salinity_true_forces_zero false { exampleConfig with speedOfSound := 1480 }
     [⟨"sound_speed", .double 1500⟩, ⟨"use_salinity", .bool true⟩]
     (by simp [wellTyped, wellTypedParameter]) (by simp [distinctNames]) (by simp)⟩

/-- Witness of the amended claim C8: the delta of the counterexample. -/
theorem C8_false_flag_option_leaves_bit_clear_witness :
    ∃ newConfig,
      newConfigOf false { exampleConfig with flags := 0x1D }
        [⟨"send_gain", .bool false⟩, ⟨"gain_assist", .bool false⟩] = .ok newConfig ∧
      newConfig.flags &&& 0x04 = 0 ∧ newConfig.flags &&& 0x10 = 0 := by
  obtain ⟨_, c, hc, h1, h2⟩ := C8_false_flag_option_leaves_bit_clear false
    { exampleConfig with flags := 0x1D }
    [⟨"send_gain", .bool false⟩, ⟨"gain_assist", .bool false⟩]
    (by simp [wellTyped, wellTypedParameter]) (by simp [distinctNames])
  exact ⟨c, hc, h1 (by simp), h2 (by simp)⟩

/-- Witness of claim C9: a delta that sets two flag options, on a
`currentConfig` whose flags are `0`. -/
theorem C9_baseline_bits_always_set_witness :
    (∃ newConfig, newConfigOf false { exampleConfig with flags := 0 }
        [⟨"data_depth", .integer 1⟩, ⟨"send_gain", .bool true⟩] = .ok newConfig) ∧
    ({ exampleConfig with flags := 0x0F } : PingConfig).flags &&& 0x09 = 0x09 :=
  ⟨(C9_baseline_bits_always_set false { exampleConfig with flags := 0 }
      [⟨"data_depth", .integer 1⟩, ⟨"send_gain", .bool true⟩]).1
      (by simp [wellTyped, wellTypedParameter]),
   (C9_baseline_bits_always_set false { exampleConfig with flags := 0 }
      [⟨"data_depth", .integer 1⟩, ⟨"send_gain", .bool true⟩]).2
      { exampleConfig with flags := 0x0F } rfl⟩

/-- Witness of claim C10: `data_depth = 1` with `nbeams = 0`. -/
theorem C10_flag_round_trip_witness :
    ∃ newConfig, newConfigOf false exampleConfig
        [⟨"data_depth", .integer 1⟩, ⟨"nbeams", .integer 0⟩] = .ok newConfig ∧
      (newConfig.flags &&& 0x02 = 0x02 ↔
        ⟨"data_depth", .integer 1⟩ ∈
          ([⟨"data_depth", .integer 1⟩, ⟨"nbeams", .integer 0⟩] : List Parameter)) ∧
      (newConfig.flags &&& 0x40 = 0x40 ↔
        ⟨"nbeams", .integer 1⟩ ∈
          ([⟨"data_depth", .integer 1⟩, ⟨"nbeams", .integer 0⟩] : List Parameter)) :=
  (C10_flag_round_trip false exampleConfig
    [⟨"data_depth", .integer 1⟩, ⟨"nbeams", .integer 0⟩]
    (by simp [wellTyped, wellTypedParameter])).1

/-! ## Lemmas on ill-typed entries -/

theorem applyParameter_illTyped (st : PingConfig × Bool) (p : Parameter)
    (h : wellTypedParameter p = false) : ∃ e, applyParameter st p = .error e := by
  obtain ⟨n, v⟩ := p
  rcases optionName_cases n with h1 | h1 | h1 | h1 | h1 | h1 | h1 | h1 | h1 | h1 | h1 | h1 | h1
  case inr.inr.inr.inr.inr.inr.inr.inr.inr.inr.inr.inr =>
    obtain ⟨h1, h2, h3, h4, h5, h6, h7, h8, h9, h10, h11, h12⟩ := h1
    simp [wellTypedParameter, h1, h2, h3, h4, h5, h6, h7, h8, h9, h10, h11, h12] at h
  all_goals
    subst h1
    cases v <;> simp [wellTypedParameter] at h <;>
      exact ⟨_, rfl⟩

theorem foldlM_illTyped (l : List Parameter) (h : ∃ p ∈ l, wellTypedParameter p = false) :
    ∀ st : PingConfig × Bool, ∃ e, l.foldlM applyParameter st = .error e := by
  induction l with
  | nil =>
    obtain ⟨p, hp, _⟩ := h
    cases hp
  | cons q l ih =>
    intro st
    cases hq : applyParameter st q with
    | error e => exact ⟨e, by rw [List.foldlM_cons, hq]; rfl⟩
    | ok st1 =>
      rw [foldlM_cons_of_ok st st1 q l hq]
      obtain ⟨p, hp, hbad⟩ := h
      rcases List.mem_cons.mp hp with rfl | hp
      · obtain ⟨e, he⟩ := applyParameter_illTyped st p hbad
        rw [he] at hq
        cases hq
      · exact ih ⟨p, hp, hbad⟩ st1

theorem newConfigOf_illTyped (u : Bool) (cur : PingConfig) (ps : List Parameter)
    (h : ∃ p ∈ ps, wellTypedParameter p = false) : ∃ e, newConfigOf u cur ps = .error e := by
  obtain ⟨e, he⟩ := foldlM_illTyped ps h (initialConfig cur, u)
  exact ⟨e, by unfold newConfigOf mergeLoop; rw [he]; rfl⟩

/-! ## Lemmas on the order of the entries -/

theorem flagBits_perm (l l2 : List Parameter) (h : l.Perm l2) : flagBits l = flagBits l2 := by
  unfold flagBits
  exact (h.map flagBit).foldr_eq' (fun x _ y _ z => by
    show y ||| (x ||| z) = x ||| (y ||| z)
    rw [← Nat.or_assoc, Nat.or_comm y x, Nat.or_assoc]) 0

theorem foldlM_flags_all (l : List Parameter) :
    ∀ st st', l.foldlM applyParameter st = .ok st' →
      st'.1.flags = st.1.flags ||| flagBits l := by
  induction l with
  | nil => intro st st' h; cases h; simp [flagBits]
  | cons p l ih =>
    intro st st' h
    obtain ⟨st1, h1, h2⟩ := foldlM_cons_ok st st' p l h
    rw [ih st1 st' h2, applyParameter_flags st st1 p h1, Nat.or_assoc]
    rfl

theorem applyParameter_soundStep (st st' : PingConfig × Bool) (p : Parameter)
    (h : applyParameter st p = .ok st') :
    (st'.1.speedOfSound, st'.2) = soundStep (st.1.speedOfSound, st.2) p := by
  by_cases hu : p.name = "use_salinity"
  · obtain ⟨n, v⟩ := p
    simp only at hu
    subst hu
    cases v with
    | bool b =>
      rw [applyParameter_use_salinity] at h
      cases h
      cases b <;> rfl
    | _ => cases h
  · by_cases hs : p.name = "sound_speed"
    · obtain ⟨n, v⟩ := p
      simp only at hs
      subst hs
      cases v with
      | double d =>
        rw [applyParameter_sound_speed] at h
        cases h
        simp only [soundStep, String.reduceEq, if_false, if_true]
        split_ifs <;> rfl
      | _ => cases h
    · obtain ⟨e1, e2⟩ := applyParameter_sound_other st st' p h hu hs
      simp only [soundStep, hu, hs, if_false]
      rw [e1, e2]

theorem foldlM_soundStep (l : List Parameter) :
    ∀ st st', l.foldlM applyParameter st = .ok st' →
      (st'.1.speedOfSound, st'.2) = l.foldl soundStep (st.1.speedOfSound, st.2) := by
  induction l with
  | nil => intro st st' h; cases h; rfl
  | cons p l ih =>
    intro st st' h
    obtain ⟨st1, h1, h2⟩ := foldlM_cons_ok st st' p l h
    rw [ih st1 st' h2, applyParameter_soundStep st st1 p h1]
    rfl

theorem foldl_soundStep_filter (l : List Parameter) :
    ∀ s, l.foldl soundStep s = (l.filter isSalinityEntry).foldl soundStep s := by
  induction l with
  | nil => intro s; rfl
  | cons p l ih =>
    intro s
    by_cases hp : isSalinityEntry p = true
    · rw [List.filter_cons_of_pos hp, List.foldl_cons, List.foldl_cons, ih]
    · rw [List.filter_cons_of_neg hp, List.foldl_cons, ih]
      have : soundStep s p = s := by
        simp only [isSalinityEntry, decide_eq_true_eq, not_or] at hp
        simp only [soundStep, hp.1, hp.2, if_false]
      rw [this]

theorem setPingRate_fields (c : PingConfig) (i : Int) :
    (setPingRate c i).masterMode = c.masterMode ∧
    (setPingRate c i).networkSpeed = c.networkSpeed ∧
    (setPingRate c i).gammaCorrection = c.gammaCorrection ∧
    (setPingRate c i).range = c.range ∧
    (setPingRate c i).gainPercent = c.gainPercent ∧
    (setPingRate c i).salinity = c.salinity := by
  unfold setPingRate
  split_ifs <;> exact ⟨rfl, rfl, rfl, rfl, rfl, rfl⟩

theorem setPingRate_pingRate (c c2 : PingConfig) (i : Int) (h : c.pingRate = c2.pingRate) :
    (setPingRate c i).pingRate = (setPingRate c2 i).pingRate := by
  unfold setPingRate
  split_ifs <;> first | rfl | exact h

/-- Each scalar field is written by the branch of its own option only. -/
theorem applyParameter_fields_other (st st' : PingConfig × Bool) (p : Parameter)
    (h : applyParameter st p = .ok st') :
    (p.name ≠ "frequency_mode" → st'.1.masterMode = st.1.masterMode) ∧
    (p.name ≠ "ping_rate" → st'.1.pingRate = st.1.pingRate) ∧
    (p.name ≠ "range" → st'.1.range = st.1.range) ∧
    (p.name ≠ "gamma_correction" → st'.1.gammaCorrection = st.1.gammaCorrection) ∧
    (p.name ≠ "gain_percent" → st'.1.gainPercent = st.1.gainPercent) ∧
    (p.name ≠ "salinity" → st'.1.salinity = st.1.salinity) ∧
    st'.1.networkSpeed = st.1.networkSpeed := by
  obtain ⟨n, v⟩ := p
  rcases optionName_cases n with h1 | h1 | h1 | h1 | h1 | h1 | h1 | h1 | h1 | h1 | h1 | h1 | h1
  case inr.inr.inr.inr.inr.inr.inr.inr.inr.inr.inr.inr =>
    rw [applyParameter_unknown st n v h1] at h
    cases h
    exact ⟨fun _ => rfl, fun _ => rfl, fun _ => rfl, fun _ => rfl, fun _ => rfl, fun _ => rfl,
      rfl⟩
  all_goals
    subst h1
    cases v <;>
    simp [applyParameter, Parameter.as_int, Parameter.as_bool, Parameter.as_double, bind,
      Except.bind, pure, Except.pure] at h ⊢
  all_goals (try split_ifs at h) <;> (try simp only [Except.ok.injEq] at h) <;> subst h <;>
    simp_all [setPingRate_fields]

theorem foldlM_field_untouched {α : Type} (f : PingConfig → α) (n : String)
    (hother : ∀ st p st', applyParameter st p = .ok st' → p.name ≠ n → f st'.1 = f st.1)
    (l : List Parameter) (hl : ∀ p ∈ l, p.name ≠ n) :
    ∀ st st', l.foldlM applyParameter st = .ok st' → f st'.1 = f st.1 := by
  intro st st' h
  exact foldlM_invariant (fun s => f s.1 = f st.1) l
    (fun p hp s s' h0 hs => (hother s p s' hs (hl p hp)).trans h0) st st' rfl h

theorem foldlM_field_set {α : Type} (f : PingConfig → α) (n : String)
    (hother : ∀ st p st', applyParameter st p = .ok st' → p.name ≠ n → f st'.1 = f st.1)
    (l : List Parameter) (hd : distinctNames l) (v : ParameterValue) (hmem : ⟨n, v⟩ ∈ l)
    (st st' : PingConfig × Bool) (h : l.foldlM applyParameter st = .ok st') :
    ∃ s1 s2, applyParameter s1 ⟨n, v⟩ = .ok s2 ∧ f s1.1 = f st.1 ∧ f s2.1 = f st'.1 := by
  obtain ⟨l1, l2, rfl⟩ := List.append_of_mem hmem
  obtain ⟨hl1, hl2, _⟩ := distinctNames_middle l1 l2 _ hd
  obtain ⟨s1, h1, h2⟩ := foldlM_append_ok l1 _ _ _ h
  obtain ⟨s2, h3, h4⟩ := foldlM_cons_ok _ _ _ _ h2
  exact ⟨s1, s2, h3, foldlM_field_untouched f n hother l1 hl1 _ _ h1,
    (foldlM_field_untouched f n hother l2 hl2 _ _ h4).symm⟩

/-- A field written only by the option `n`, from the value of the entry and
the field itself, does not depend on the order of a delta with distinct
names. -/
theorem foldlM_field_perm {α : Type} (f : PingConfig → α) (n : String)
    (hother : ∀ st p st', applyParameter st p = .ok st' → p.name ≠ n → f st'.1 = f st.1)
    (hset : ∀ s t v s' t', applyParameter s ⟨n, v⟩ = .ok s' → applyParameter t ⟨n, v⟩ = .ok t' →
      f s.1 = f t.1 → f s'.1 = f t'.1)
    (l l2 : List Parameter) (hd : distinctNames l) (hperm : l.Perm l2)
    (st st' st2 : PingConfig × Bool) (h : l.foldlM applyParameter st = .ok st')
    (h2 : l2.foldlM applyParameter st = .ok st2) : f st'.1 = f st2.1 := by
  have hd2 : distinctNames l2 := (List.Perm.nodup_iff (hperm.map Parameter.name)).mp hd
  by_cases he : ∃ p ∈ l, p.name = n
  · obtain ⟨⟨m, v⟩, hp, hn⟩ := he
    simp only at hn
    subst hn
    obtain ⟨s1, s2, a1, a2, a3⟩ := foldlM_field_set f m hother l hd v hp st st' h
    obtain ⟨t1, t2, b1, b2, b3⟩ :=
      foldlM_field_set f m hother l2 hd2 v (hperm.mem_iff.mp hp) st st2 h2
    rw [← a3, ← b3]
    exact hset s1 t1 v s2 t2 a1 b1 (a2.trans b2.symm)
  · have hl : ∀ p ∈ l, p.name ≠ n := fun p hp e => he ⟨p, hp, e⟩
    have hl2 : ∀ p ∈ l2, p.name ≠ n := fun p hp => hl p (hperm.mem_iff.mpr hp)
    rw [foldlM_field_untouched f n hother l hl st st' h,
      foldlM_field_untouched f n hother l2 hl2 st st2 h2]

theorem applyParameter_set_masterMode (s t : PingConfig × Bool) (v : ParameterValue)
    (s' t' : PingConfig × Bool) (h1 : applyParameter s ⟨"frequency_mode", v⟩ = .ok s')
    (h2 : applyParameter t ⟨"frequency_mode", v⟩ = .ok t')
    (_ : s.1.masterMode = t.1.masterMode) : s'.1.masterMode = t'.1.masterMode := by
  cases v <;>
    simp [applyParameter, Parameter.as_int, bind, Except.bind, pure, Except.pure] at h1 h2
  subst h1 h2
  rfl

theorem applyParameter_set_pingRate (s t : PingConfig × Bool) (v : ParameterValue)
    (s' t' : PingConfig × Bool) (h1 : applyParameter s ⟨"ping_rate", v⟩ = .ok s')
    (h2 : applyParameter t ⟨"ping_rate", v⟩ = .ok t')
    (e : s.1.pingRate = t.1.pingRate) : s'.1.pingRate = t'.1.pingRate := by
  cases v <;>
    simp [applyParameter, Parameter.as_int, bind, Except.bind, pure, Except.pure] at h1 h2
  subst h1 h2
  exact setPingRate_pingRate _ _ _ e

theorem applyParameter_set_range (s t : PingConfig × Bool) (v : ParameterValue)
    (s' t' : PingConfig × Bool) (h1 : applyParameter s ⟨"range", v⟩ = .ok s')
    (h2 : applyParameter t ⟨"range", v⟩ = .ok t')
    (_ : s.1.range = t.1.range) : s'.1.range = t'.1.range := by
  cases v <;>
    simp [applyParameter, Parameter.as_double, bind, Except.bind, pure, Except.pure] at h1 h2
  subst h1 h2
  rfl

theorem applyParameter_set_gammaCorrection (s t : PingConfig × Bool) (v : ParameterValue)
    (s' t' : PingConfig × Bool) (h1 : applyParameter s ⟨"gamma_correction", v⟩ = .ok s')
    (h2 : applyParameter t ⟨"gamma_correction", v⟩ = .ok t')
    (_ : s.1.gammaCorrection = t.1.gammaCorrection) :
    s'.1.gammaCorrection = t'.1.gammaCorrection := by
  cases v <;>
    simp [applyParameter, Parameter.as_int, bind, Except.bind, pure, Except.pure] at h1 h2
  subst h1 h2
  rfl

theorem applyParameter_set_gainPercent (s t : PingConfig × Bool) (v : ParameterValue)
    (s' t' : PingConfig × Bool) (h1 : applyParameter s ⟨"gain_percent", v⟩ = .ok s')
    (h2 : applyParameter t ⟨"gain_percent", v⟩ = .ok t')
    (_ : s.1.gainPercent = t.1.gainPercent) : s'.1.gainPercent = t'.1.gainPercent := by
  cases v <;>
    simp [applyParameter, Parameter.as_double, bind, Except.bind, pure, Except.pure] at h1 h2
  subst h1 h2
  rfl

theorem applyParameter_set_salinity (s t : PingConfig × Bool) (v : ParameterValue)
    (s' t' : PingConfig × Bool) (h1 : applyParameter s ⟨"salinity", v⟩ = .ok s')
    (h2 : applyParameter t ⟨"salinity", v⟩ = .ok t')
    (_ : s.1.salinity = t.1.salinity) : s'.1.salinity = t'.1.salinity := by
  cases v <;>
    simp [applyParameter, Parameter.as_double, bind, Except.bind, pure, Except.pure] at h1 h2
  subst h1 h2
  rfl

/-! ## The claims, continued -/

/-- Claim C11: if some entry of the delta carries a value of another type than
the one its branch reads, the callback leaves with the exception, sends no
request to the device session and leaves `currentConfig` as it was, wherever
the entry stands in the delta. -/
theorem C11_ill_typed_delta_is_atomic (request_ping_config : PingConfig → PingConfig)
    (use_salinity0 : Bool) (currentConfig : PingConfig) (parameters : List Parameter)
    (hbad : ∃ p ∈ parameters, wellTypedParameter p = false) :
    ∃ e, set_config_callback request_ping_config use_salinity0 currentConfig parameters
        = (currentConfig, .error e) ∧
      requestsSent use_salinity0 currentConfig parameters = [] := by
  obtain ⟨e, he⟩ := newConfigOf_illTyped use_salinity0 currentConfig parameters hbad
  refine ⟨e, ?_, ?_⟩
  · unfold set_config_callback
    rw [he]
  · unfold requestsSent
    rw [he]

/-- Witness of claim C11: a valid `range` followed by a boolean `ping_rate`. -/
theorem C11_ill_typed_delta_is_atomic_witness :
    ∃ e, set_config_callback id false exampleConfig
        [⟨"range", .double 10⟩, ⟨"ping_rate", .bool true⟩] = (exampleConfig, .error e) ∧
      requestsSent false exampleConfig
        [⟨"range", .double 10⟩, ⟨"ping_rate", .bool true⟩] = [] :=
  C11_ill_typed_delta_is_atomic id false exampleConfig
    [⟨"range", .double 10⟩, ⟨"ping_rate", .bool true⟩]
    ⟨⟨"ping_rate", .bool true⟩, by simp, rfl⟩

/-- Claim C12: in either mode, a ping delivered with no subscriber issues
`standby`, publishes nothing and leaves the sonar in standby, twice as once; a
ping delivered with a subscriber is published and issues no command; a dummy
message with a subscriber issues `resume` and leaves the sonar active; a dummy
message with no subscriber does nothing. From active mode: ping with count 0,
then dummy with count 1, ends in active mode through standby. -/
theorem C12_standby_control {PingMessage Ping : Type} (copy_to_ros : PingMessage → Ping)
    (s : Session Ping) (ping ping2 : PingMessage) (n : Nat) :
    publish_ping copy_to_ros 0 ping s
      = { mode := .Standby, commands := s.commands ++ [.standby], published := s.published } ∧
    (publish_ping copy_to_ros 0 ping2 (publish_ping copy_to_ros 0 ping s)).mode
      = (publish_ping copy_to_ros 0 ping s).mode ∧
    publish_ping copy_to_ros (n + 1) ping s
      = { mode := s.mode, commands := s.commands,
          published := s.published ++ [copy_to_ros ping] } ∧
    handle_dummy (n + 1) s
      = { mode := .Active, commands := s.commands ++ [.resume], published := s.published } ∧
    handle_dummy 0 s = s ∧
    (publish_ping copy_to_ros 0 ping
        { mode := .Active, commands := [], published := [] }).mode = .Standby ∧
    (handle_dummy 1 (publish_ping copy_to_ros 0 ping
        { mode := .Active, commands := [], published := [] })).mode = .Active :=
  ⟨rfl, rfl, rfl, by simp [handle_dummy, Session.resume], rfl, rfl, rfl⟩

/-- Claim C13: a delta with only `ping_rate = c` submits the ping rate Normal,
High, Highest, Low, Lowest, Standby for `c = 0, 1, 2, 3, 4, 5`; for any other
integer it submits the ping rate of `currentConfig`, and the callback returns
a result with `successful = true`. -/
theorem C13_ping_rate_codes (request_ping_config : PingConfig → PingConfig)
    (use_salinity0 : Bool) (currentConfig : PingConfig) (c : Int) :
    (newConfigOf use_salinity0 currentConfig [⟨"ping_rate", .integer 0⟩]).map
        (fun cfg => cfg.pingRate) = .ok .pingRateNormal ∧
    (newConfigOf use_salinity0 currentConfig [⟨"ping_rate", .integer 1⟩]).map
        (fun cfg => cfg.pingRate) = .ok .pingRateHigh ∧
    (newConfigOf use_salinity0 currentConfig [⟨"ping_rate", .integer 2⟩]).map
        (fun cfg => cfg.pingRate) = .ok .pingRateHighest ∧
    (newConfigOf use_salinity0 currentConfig [⟨"ping_rate", .integer 3⟩]).map
        (fun cfg => cfg.pingRate) = .ok .pingRateLow ∧
    (newConfigOf use_salinity0 currentConfig [⟨"ping_rate", .integer 4⟩]).map
        (fun cfg => cfg.pingRate) = .ok .pingRateLowest ∧
    (newConfigOf use_salinity0 currentConfig [⟨"ping_rate", .integer 5⟩]).map
        (fun cfg => cfg.pingRate) = .ok .pingRateStandby ∧
    (c < 0 ∨ 5 < c →
      (newConfigOf use_salinity0 currentConfig [⟨"ping_rate", .integer c⟩]).map
          (fun cfg => cfg.pingRate) = .ok currentConfig.pingRate ∧
      ∃ result,
        (set_config_callback request_ping_config use_salinity0 currentConfig
          [⟨"ping_rate", .integer c⟩]).2 = .ok result ∧ result.successful = true) := by
  refine ⟨rfl, rfl, rfl, rfl, rfl, rfl, fun hc => ?_⟩
  have h : newConfigOf use_salinity0 currentConfig [⟨"ping_rate", .integer c⟩]
      = .ok (initialConfig currentConfig) := by
    have hs : setPingRate (initialConfig currentConfig) c = initialConfig currentConfig := by
      unfold setPingRate
      rw [if_neg (by omega), if_neg (by omega), if_neg (by omega), if_neg (by omega),
        if_neg (by omega), if_neg (by omega)]
    show Except.map Prod.fst (Except.ok (setPingRate (initialConfig currentConfig) c,
      use_salinity0)) = _
    rw [hs]
    rfl
  refine ⟨by rw [h]; rfl, ?_⟩
  rw [set_config_callback_of_ok request_ping_config _ _ _ _ h]
  exact ⟨_, rfl, (validateFeedback_lines _ _).2⟩


/-- Witness of claim C13: the codes `-1` and `6`. -/
theorem C13_ping_rate_codes_witness :
    ((newConfigOf false { exampleConfig with pingRate := .pingRateLow }
        [⟨"ping_rate", .integer (-1)⟩]).map (fun cfg => cfg.pingRate) = .ok .pingRateLow ∧
      ∃ result,
        (set_config_callback id false { exampleConfig with pingRate := .pingRateLow }
          [⟨"ping_rate", .integer (-1)⟩]).2 = .ok result ∧ result.successful = true) ∧
    ((newConfigOf false { exampleConfig with pingRate := .pingRateLow }
        [⟨"ping_rate", .integer 6⟩]).map (fun cfg => cfg.pingRate) = .ok .pingRateLow ∧
      ∃ result,
        (set_config_callback id false { exampleConfig with pingRate := .pingRateLow }
          [⟨"ping_rate", .integer 6⟩]).2 = .ok result ∧ result.successful = true) :=
  ⟨(C13_ping_rate_codes id false { exampleConfig with pingRate := .pingRateLow } (-1)).2.2.2.2.2.2
      (Or.inl (by decide)),
   (C13_ping_rate_codes id false { exampleConfig with pingRate := .pingRateLow } 6).2.2.2.2.2.2
      (Or.inr (by decide))⟩

/-- Counterexample to claim C15: `ping_rate = 1` submits the rate High; the
device answers with the rate Normal and nothing else changed; the reason text
is empty. -/
theorem C15_counterexample_ping_rate_not_compared :
    (newConfigOf false exampleConfig [⟨"ping_rate", .integer 1⟩]).map
        (fun cfg => cfg.pingRate) = .ok .pingRateHigh ∧
    set_config_callback (fun cfg => { cfg with pingRate := .pingRateNormal }) false
        exampleConfig [⟨"ping_rate", .integer 1⟩]
      = (exampleConfig, .ok ⟨true, ""⟩) :=
  ⟨rfl, rfl⟩

/-- Claim C15, amended: the ping rate is not compared: the result of the
validation is the same whatever the ping rates of the submitted configuration
and of the feedback, and no line of the reason text reports `ping_rate`. -/
theorem C15_result_ignores_ping_rate (newConfig feedback : PingConfig)
    (r1 r2 : PingRateType) :
    validateFeedback { newConfig with pingRate := r1 } { feedback with pingRate := r2 }
      = validateFeedback newConfig feedback ∧
    "Could not update ping_rate." ∉ linesOf (validateFeedback newConfig feedback).reason := by
  refine ⟨rfl, ?_⟩
  rw [(validateFeedback_lines newConfig feedback).1]
  simp only [List.mem_append, not_or]
  refine ⟨⟨⟨⟨⟨⟨⟨⟨⟨?_, ?_⟩, ?_⟩, ?_⟩, ?_⟩, ?_⟩, ?_⟩, ?_⟩, ?_⟩, ?_⟩ <;> split_ifs <;> simp

/-- Counterexample to claim C17: the parameter being set is `range`, the
mismatching field is `range`, and `successful` goes from true to false. -/
theorem C17_counterexample_matching_name_fails :
    handleFeedbackForParam ⟨true, ""⟩ ⟨"range", .double 20⟩ (10 : ℚ) 20 "range" ""
      = ⟨false, "Could not update range.\n"⟩ :=
  rfl

/-- Claim C17, amended: with equal values the result is returned unchanged;
with different values one line is appended to the reason, and `successful`
keeps its value when the parameter being set is another one than the field
(line `<field> change.`) and is set to false when it is the field itself (line
`Could not update <field>.`). -/
theorem C17_feedback_helper {T : Type} [DecidableEq T] (result : SetParametersResult)
    (param : Parameter) (old_val new_val : T) (param_name param_name_to_display : String) :
    (old_val = new_val →
      handleFeedbackForParam result param old_val new_val param_name param_name_to_display
        = result) ∧
    (old_val ≠ new_val → param.name ≠ param_name →
      handleFeedbackForParam result param old_val new_val param_name param_name_to_display
        = { successful := result.successful,
            reason := result.reason ++
              ((if param_name_to_display = "" then param_name else param_name_to_display)
                ++ " change.\n") }) ∧
    (old_val ≠ new_val → param.name = param_name →
      handleFeedbackForParam result param old_val new_val param_name param_name_to_display
        = { successful := false,
            reason := result.reason ++
              ("Could not update " ++
                (if param_name_to_display = "" then param_name else param_name_to_display)
                ++ ".\n") }) := by
  refine ⟨fun h => ?_, fun h hn => ?_, fun h hn => ?_⟩
  · unfold handleFeedbackForParam
    rw [if_neg (not_not.mpr h)]
  · unfold handleFeedbackForParam
    rw [if_pos h]
    simp only [if_neg hn]
  · unfold handleFeedbackForParam
    rw [if_pos h]
    simp only [if_pos hn]

/-- Witness of the amended claim C17: equal values, a field changed while
`range` is being set, and `range` itself refused. -/
theorem C17_feedback_helper_witness :
    handleFeedbackForParam ⟨true, ""⟩ ⟨"range", .double 20⟩ (10 : ℚ) 10 "range" "" = ⟨true, ""⟩ ∧
    handleFeedbackForParam ⟨true, ""⟩ ⟨"range", .double 20⟩ (127 : Nat) 128 "gamma_correction" ""
      = ⟨true, "gamma_correction change.\n"⟩ ∧
    handleFeedbackForParam ⟨true, ""⟩ ⟨"range", .double 20⟩ (10 : ℚ) 20 "range" ""
      = ⟨false, "Could not update range.\n"⟩ :=
  ⟨(C17_feedback_helper ⟨true, ""⟩ ⟨"range", .double 20⟩ (10 : ℚ) 10 "range" "").1 rfl,
   (C17_feedback_helper ⟨true, ""⟩ ⟨"range", .double 20⟩ (127 : Nat) 128
      "gamma_correction" "").2.1 (by decide) (by decide),
   (C17_feedback_helper ⟨true, ""⟩ ⟨"range", .double 20⟩ (10 : ℚ) 20 "range" "").2.2
      (by norm_num) rfl⟩

theorem PingConfig.eq_of_fields (c c2 : PingConfig) (h1 : c.masterMode = c2.masterMode)
    (h2 : c.pingRate = c2.pingRate) (h3 : c.networkSpeed = c2.networkSpeed)
    (h4 : c.gammaCorrection = c2.gammaCorrection) (h5 : c.flags = c2.flags)
    (h6 : c.range = c2.range) (h7 : c.gainPercent = c2.gainPercent)
    (h8 : c.speedOfSound = c2.speedOfSound) (h9 : c.salinity = c2.salinity) : c = c2 := by
  cases c
  cases c2
  simp only at h1 h2 h3 h4 h5 h6 h7 h8 h9
  subst h1 h2 h3 h4 h5 h6 h7 h8 h9
  rfl

/-- For one and the same value of the local flag at loop entry: for a
well-typed delta with distinct names, any rearrangement of its entries that
lists the `use_salinity` and `sound_speed` entries in the same relative order
yields the same configuration, in every field. -/
theorem mergeLoop_order_independent_of_same_flag (use_salinity0 : Bool) (currentConfig : PingConfig)
    (parameters reordered : List Parameter) (hw : wellTyped parameters)
    (hd : distinctNames parameters) (hperm : parameters.Perm reordered)
    (horder : parameters.filter isSalinityEntry = reordered.filter isSalinityEntry) :
    ∃ newConfig, newConfigOf use_salinity0 currentConfig parameters = .ok newConfig ∧
      newConfigOf use_salinity0 currentConfig reordered = .ok newConfig := by
  have hw2 : wellTyped reordered := fun p hp => hw p (hperm.mem_iff.mpr hp)
  obtain ⟨st1, h1⟩ := foldlM_total _ hw (initialConfig currentConfig, use_salinity0)
  obtain ⟨st2, h2⟩ := foldlM_total _ hw2 (initialConfig currentConfig, use_salinity0)
  have hsound : (st1.1.speedOfSound, st1.2) = (st2.1.speedOfSound, st2.2) := by
    rw [foldlM_soundStep _ _ _ h1, foldlM_soundStep _ _ _ h2, foldl_soundStep_filter parameters,
      foldl_soundStep_filter reordered, horder]
  have hflags : st1.1.flags = st2.1.flags := by
    rw [foldlM_flags_all _ _ _ h1, foldlM_flags_all _ _ _ h2,
      flagBits_perm parameters reordered hperm]
  have e : st1.1 = st2.1 := by
    apply PingConfig.eq_of_fields
    · exact foldlM_field_perm (fun c => c.masterMode) "frequency_mode"
        (fun s p s' h => (applyParameter_fields_other s s' p h).1)
        applyParameter_set_masterMode _ _ hd hperm _ _ _ h1 h2
    · exact foldlM_field_perm (fun c => c.pingRate) "ping_rate"
        (fun s p s' h => (applyParameter_fields_other s s' p h).2.1)
        applyParameter_set_pingRate _ _ hd hperm _ _ _ h1 h2
    · exact foldlM_field_perm (fun c => c.networkSpeed) "frequency_mode"
        (fun s p s' h _ => (applyParameter_fields_other s s' p h).2.2.2.2.2.2)
        (fun s t v s' t' a b e =>
          ((applyParameter_fields_other s s' _ a).2.2.2.2.2.2).trans
            (e.trans ((applyParameter_fields_other t t' _ b).2.2.2.2.2.2).symm))
        _ _ hd hperm _ _ _ h1 h2
    · exact foldlM_field_perm (fun c => c.gammaCorrection) "gamma_correction"
        (fun s p s' h => (applyParameter_fields_other s s' p h).2.2.2.1)
        applyParameter_set_gammaCorrection _ _ hd hperm _ _ _ h1 h2
    · exact hflags
    · exact foldlM_field_perm (fun c => c.range) "range"
        (fun s p s' h => (applyParameter_fields_other s s' p h).2.2.1)
        applyParameter_set_range _ _ hd hperm _ _ _ h1 h2
    · exact foldlM_field_perm (fun c => c.gainPercent) "gain_percent"
        (fun s p s' h => (applyParameter_fields_other s s' p h).2.2.2.2.1)
        applyParameter_set_gainPercent _ _ hd hperm _ _ _ h1 h2
    · exact congrArg Prod.fst hsound
    · exact foldlM_field_perm (fun c => c.salinity) "salinity"
        (fun s p s' h => (applyParameter_fields_other s s' p h).2.2.2.2.2.1)
        applyParameter_set_salinity _ _ hd hperm _ _ _ h1 h2
  refine ⟨st1.1, (newConfigOf_ok _ _ _ _).mpr ⟨st1.2, h1⟩, (newConfigOf_ok _ _ _ _).mpr ⟨st2.2, ?_⟩⟩
  rw [e]
  exact h2

/-! ## Lemmas on entries that write the speed of sound -/

theorem soundStep_fst (s : ℚ × Bool) (p : Parameter) (h : writesSpeedOfSound p = false) :
    (soundStep s p).1 = s.1 := by
  obtain ⟨n, v⟩ := p
  simp only [writesSpeedOfSound, inRangeSoundSpeed, Bool.or_eq_false_iff,
    decide_eq_false_iff_not] at h
  unfold soundStep
  by_cases hu : n = "use_salinity"
  · subst hu
    cases v with
    | bool b =>
      cases b
      · rfl
      · exact absurd rfl h.1
    | _ => rfl
  · by_cases hs : n = "sound_speed"
    · subst hs
      cases v with
      | double d =>
        have hd : ¬ (1400 ≤ d ∧ d ≤ 1600) := by
          have := h.2
          simpa using this
        simp only [String.reduceEq, if_false, if_true]
        rw [if_neg (fun hh => hd hh.2)]
      | _ => rfl
    · simp only [hu, hs, if_false]

theorem soundStep_snd (s : ℚ × Bool) (p : Parameter)
    (h : p ≠ ⟨"use_salinity", .bool true⟩) (hs : s.2 = false) : (soundStep s p).2 = false := by
  obtain ⟨n, v⟩ := p
  unfold soundStep
  by_cases hu : n = "use_salinity"
  · subst hu
    cases v with
    | bool b =>
      cases b
      · rfl
      · exact absurd rfl h
    | _ => exact hs
  · by_cases hn : n = "sound_speed"
    · subst hn
      cases v with
      | double d =>
        simp only [String.reduceEq, if_false, if_true]
        split_ifs <;> exact hs
      | _ => exact hs
    · simp only [hu, hn, if_false]
      exact hs

theorem foldl_soundStep_fst (l : List Parameter) (h : ∀ p ∈ l, writesSpeedOfSound p = false) :
    ∀ s, (l.foldl soundStep s).1 = s.1 := by
  induction l with
  | nil => intro s; rfl
  | cons p l ih =>
    intro s
    rw [List.foldl_cons, ih (fun q hq => h q (List.mem_cons_of_mem p hq)),
      soundStep_fst s p (h p (List.mem_cons_self p l))]

theorem foldl_soundStep_snd (l : List Parameter)
    (h : ∀ p ∈ l, p ≠ ⟨"use_salinity", .bool true⟩) :
    ∀ s, s.2 = false → (l.foldl soundStep s).2 = false := by
  induction l with
  | nil => intro s hs; exact hs
  | cons p l ih =>
    intro s hs
    rw [List.foldl_cons]
    exact ih (fun q hq => h q (List.mem_cons_of_mem p hq)) _
      (soundStep_snd s p (h p (List.mem_cons_self p l)) hs)

/-- Apart from an in-range `sound_speed`, the configuration that one iteration
yields does not depend on the local flag. -/
theorem applyParameter_flag_irrelevant (c : PingConfig) (b b2 : Bool) (p : Parameter)
    (h : inRangeSoundSpeed p = false) :
    (applyParameter (c, b) p).map Prod.fst = (applyParameter (c, b2) p).map Prod.fst := by
  obtain ⟨n, v⟩ := p
  rcases optionName_cases n with h1 | h1 | h1 | h1 | h1 | h1 | h1 | h1 | h1 | h1 | h1 | h1 | h1
  case inr.inr.inr.inr.inr.inr.inr.inr.inr.inr.inr.inr =>
    rw [applyParameter_unknown _ n v h1, applyParameter_unknown _ n v h1]
    rfl
  case inr.inr.inr.inr.inr.inr.inr.inr.inr.inr.inl =>
    subst h1
    cases v with
    | double d =>
      have hd : ¬ (1400 ≤ d ∧ d ≤ 1600) := by
        simpa [inRangeSoundSpeed] using h
      rw [applyParameter_sound_speed, applyParameter_sound_speed,
        if_neg (fun hh => hd hh.2), if_neg (fun hh => hd hh.2)]
      rfl
    | _ => rfl
  all_goals
    subst h1
    cases v <;> try rfl
  all_goals
    simp only [applyParameter, Parameter.as_int, Parameter.as_bool, Parameter.as_double, bind,
      Except.bind, pure, Except.pure, String.reduceEq, if_false, if_true]
    split_ifs <;> rfl

theorem foldlM_flag_irrelevant (l : List Parameter)
    (h : ∀ p ∈ l, inRangeSoundSpeed p = false) :
    ∀ (c : PingConfig) (b b2 : Bool),
      (l.foldlM applyParameter (c, b)).map Prod.fst
        = (l.foldlM applyParameter (c, b2)).map Prod.fst := by
  induction l with
  | nil => intro c b b2; rfl
  | cons p l ih =>
    intro c b b2
    have hp := applyParameter_flag_irrelevant c b b2 p (h p (List.mem_cons_self p l))
    rw [List.foldlM_cons, List.foldlM_cons]
    cases h1 : applyParameter (c, b) p with
    | error e =>
      rw [h1] at hp
      cases h2 : applyParameter (c, b2) p with
      | error e2 =>
        rw [h2] at hp
        cases hp
        rfl
      | ok t => rw [h2] at hp; cases hp
    | ok s =>
      rw [h1] at hp
      cases h2 : applyParameter (c, b2) p with
      | error e2 => rw [h2] at hp; cases hp
      | ok t =>
        rw [h2] at hp
        obtain ⟨c1, b1⟩ := s
        obtain ⟨c2, b3⟩ := t
        have e : c1 = c2 := by
          simp only [Except.map] at hp
          exact Except.ok.inj hp
        subst e
        exact ih (fun q hq => h q (List.mem_cons_of_mem p hq)) c1 b1 b3

/-- A `sound_speed` entry whose value fails the test of line 320 can be left
out of the delta. -/
theorem foldlM_drop_rejected (l1 l3 : List Parameter) (v : ℚ) (hv : ¬ (1400 ≤ v ∧ v ≤ 1600))
    (st : PingConfig × Bool) :
    (l1 ++ ⟨"sound_speed", .double v⟩ :: l3).foldlM applyParameter st
      = (l1 ++ l3).foldlM applyParameter st := by
  rw [List.foldlM_append, List.foldlM_append]
  congr 1
  funext s
  rw [foldlM_cons_of_ok s s _ l3 (by
    rw [applyParameter_sound_speed, if_neg (fun hh => hv hh.2)])]

/-! ## The claims on the speed of sound and on the order of the entries -/

/-- Counterexample to claim C6: `use_salinity = false` is processed before
`sound_speed = 1550`, but a `use_salinity = true` between the two keeps the
value out and sets `0`; and with `sound_speed = 1700` a `use_salinity = true`
processed first leaves `0`, not the `1480` of `currentConfig`. -/
theorem C6_counterexample_repeated_use_salinity :
    (newConfigOf false { exampleConfig with speedOfSound := 1480 }
        [⟨"use_salinity", .bool false⟩, ⟨"use_salinity", .bool true⟩,
          ⟨"sound_speed", .double 1550⟩]).map (fun c => c.speedOfSound) = .ok 0 ∧
    (newConfigOf false { exampleConfig with speedOfSound := 1480 }
        [⟨"use_salinity", .bool true⟩, ⟨"use_salinity", .bool false⟩,
          ⟨"sound_speed", .double 1700⟩]).map (fun c => c.speedOfSound) = .ok 0 :=
  ⟨rfl, rfl⟩

theorem initial_soundStep (u : Bool) (cur : PingConfig) (ps : List Parameter)
    (st : PingConfig × Bool)
    (h : ps.foldlM applyParameter (initialConfig cur, u) = .ok st) :
    (st.1.speedOfSound, st.2) = ps.foldl soundStep (cur.speedOfSound, u) :=
  foldlM_soundStep ps _ _ h

/-- Claim C6, amended: in a well-typed delta (names may repeat) where
`use_salinity = false` stands before `sound_speed = v`: if `1400 ≤ v ≤ 1600`,
no `use_salinity = true` stands between the two and no later entry can write
the speed of sound, the submitted `speedOfSound` is `v`, whatever the local
flag held at loop entry; if `v` is outside the interval and no other entry can
write the speed of sound, the submitted configuration is the same whatever the
flag held, its `speedOfSound` is that of `currentConfig`, and the whole call
(new `currentConfig`, result) is the one of the delta without the
`sound_speed` entry. -/
theorem C6_sound_speed_after_use_salinity_false (currentConfig : PingConfig)
    (l1 l2 l3 : List Parameter) (v : ℚ)
    (hw : wellTyped
      (l1 ++ ⟨"use_salinity", .bool false⟩ :: (l2 ++ ⟨"sound_speed", .double v⟩ :: l3))) :
    ((1400 ≤ v ∧ v ≤ 1600) →
      (∀ p ∈ l2, p ≠ ⟨"use_salinity", .bool true⟩) →
      (∀ p ∈ l3, writesSpeedOfSound p = false) →
      ∀ use_salinity0 : Bool, ∃ newConfig,
        newConfigOf use_salinity0 currentConfig
          (l1 ++ ⟨"use_salinity", .bool false⟩ :: (l2 ++ ⟨"sound_speed", .double v⟩ :: l3))
          = .ok newConfig ∧
        newConfig.speedOfSound = v) ∧
    (¬ (1400 ≤ v ∧ v ≤ 1600) →
      (∀ p ∈ l1 ++ (l2 ++ l3), writesSpeedOfSound p = false) →
      ∃ newConfig,
        (∀ use_salinity0 : Bool,
          newConfigOf use_salinity0 currentConfig
            (l1 ++ ⟨"use_salinity", .bool false⟩ :: (l2 ++ ⟨"sound_speed", .double v⟩ :: l3))
            = .ok newConfig) ∧
        newConfig.speedOfSound = currentConfig.speedOfSound ∧
        ∀ (request_ping_config : PingConfig → PingConfig) (use_salinity0 use_salinity1 : Bool),
          set_config_callback request_ping_config use_salinity0 currentConfig
            (l1 ++ ⟨"use_salinity", .bool false⟩ :: (l2 ++ ⟨"sound_speed", .double v⟩ :: l3))
          = set_config_callback request_ping_config use_salinity1 currentConfig
            (l1 ++ ⟨"use_salinity", .bool false⟩ :: (l2 ++ l3))) := by
  constructor
  · intro hv h2 h3 u
    obtain ⟨st, h⟩ := foldlM_total _ hw (initialConfig currentConfig, u)
    refine ⟨st.1, (newConfigOf_ok _ _ _ _).mpr ⟨st.2, h⟩, ?_⟩
    have hs := initial_soundStep u currentConfig _ st h
    rw [List.foldl_append, List.foldl_cons, List.foldl_append, List.foldl_cons] at hs
    have hflag : (l2.foldl soundStep
        (soundStep (l1.foldl soundStep (currentConfig.speedOfSound, u))
          ⟨"use_salinity", .bool false⟩)).2 = false :=
      foldl_soundStep_snd l2 h2 _ rfl
    have hstep : ∀ b : ℚ × Bool, b.2 = false →
        soundStep b ⟨"sound_speed", .double v⟩ = (v, false) := by
      intro b hb
      simp only [soundStep, String.reduceEq, if_false, if_true]
      rw [if_pos ⟨hb, hv⟩, hb]
    rw [hstep _ hflag] at hs
    have := congrArg Prod.fst hs
    simp only at this
    rw [this, foldl_soundStep_fst l3 h3]
  · intro hv hno
    have hall : ∀ p ∈ l1 ++ ⟨"use_salinity", .bool false⟩ ::
        (l2 ++ ⟨"sound_speed", .double v⟩ :: l3), writesSpeedOfSound p = false := by
      intro p hp
      simp only [List.mem_append, List.mem_cons] at hp hno
      rcases hp with hp | rfl | hp | rfl | hp
      · exact hno p (Or.inl hp)
      · rfl
      · exact hno p (Or.inr (Or.inl hp))
      · simp only [writesSpeedOfSound, inRangeSoundSpeed, Bool.or_eq_false_iff,
          decide_eq_false_iff_not]
        exact ⟨by simp, fun hh => hv hh.2⟩
      · exact hno p (Or.inr (Or.inr hp))
    have hin : ∀ p ∈ l1 ++ ⟨"use_salinity", .bool false⟩ ::
        (l2 ++ ⟨"sound_speed", .double v⟩ :: l3), inRangeSoundSpeed p = false := by
      intro p hp
      have := hall p hp
      simp only [writesSpeedOfSound, Bool.or_eq_false_iff] at this
      exact this.2
    have hindep : ∀ u u2 : Bool,
        newConfigOf u currentConfig
          (l1 ++ ⟨"use_salinity", .bool false⟩ :: (l2 ++ ⟨"sound_speed", .double v⟩ :: l3))
        = newConfigOf u2 currentConfig
          (l1 ++ ⟨"use_salinity", .bool false⟩ :: (l2 ++ ⟨"sound_speed", .double v⟩ :: l3)) :=
      fun u u2 => foldlM_flag_irrelevant _ hin (initialConfig currentConfig) u u2
    have hdrop : ∀ u : Bool,
        newConfigOf u currentConfig
          (l1 ++ ⟨"use_salinity", .bool false⟩ :: (l2 ++ ⟨"sound_speed", .double v⟩ :: l3))
        = newConfigOf u currentConfig (l1 ++ ⟨"use_salinity", .bool false⟩ :: (l2 ++ l3)) := by
      intro u
      unfold newConfigOf mergeLoop
      have e1 : l1 ++ ⟨"use_salinity", .bool false⟩ ::
          (l2 ++ ⟨"sound_speed", .double v⟩ :: l3)
          = (l1 ++ ⟨"use_salinity", .bool false⟩ :: l2) ++ ⟨"sound_speed", .double v⟩ :: l3 := by
        simp
      have e2 : l1 ++ ⟨"use_salinity", .bool false⟩ :: (l2 ++ l3)
          = (l1 ++ ⟨"use_salinity", .bool false⟩ :: l2) ++ l3 := by
        simp
      rw [e1, e2, foldlM_drop_rejected _ _ v hv]
    obtain ⟨st, h⟩ := foldlM_total _ hw (initialConfig currentConfig, true)
    have hc : newConfigOf true currentConfig
        (l1 ++ ⟨"use_salinity", .bool false⟩ :: (l2 ++ ⟨"sound_speed", .double v⟩ :: l3))
        = .ok st.1 := (newConfigOf_ok _ _ _ _).mpr ⟨st.2, h⟩
    refine ⟨st.1, fun u => (hindep u true).trans hc, ?_, fun dev u u1 => ?_⟩
    · have hs := initial_soundStep true currentConfig _ st h
      have := congrArg Prod.fst hs
      simp only at this
      rw [this, foldl_soundStep_fst _ hall]
    · unfold set_config_callback
      rw [hindep u u1, hdrop u1]

/-- Witness of the amended claim C6: with `range` given twice, `v = 1550` is
applied and `v = 1700` leaves the field at the value of `currentConfig`. -/
theorem C6_sound_speed_after_use_salinity_false_witness :
    (∃ newConfig,
      newConfigOf true { exampleConfig with speedOfSound := 1480 }
        ([⟨"range", .double 1⟩] ++ ⟨"use_salinity", .bool false⟩ ::
          ([⟨"range", .double 2⟩] ++ ⟨"sound_speed", .double 1550⟩ :: [])) = .ok newConfig ∧
      newConfig.speedOfSound = 1550) ∧
    (∃ newConfig,
      newConfigOf true { exampleConfig with speedOfSound := 1480 }
        ([⟨"range", .double 1⟩] ++ ⟨"use_salinity", .bool false⟩ ::
          ([⟨"range", .double 2⟩] ++ ⟨"sound_speed", .double 1700⟩ :: [])) = .ok newConfig ∧
      newConfig.speedOfSound = 1480) := by
  constructor
  · exact (C6_sound_speed_after_use_salinity_false { exampleConfig with speedOfSound := 1480 }
      [⟨"range", .double 1⟩] [⟨"range", .double 2⟩] [] 1550
      (by simp [wellTyped, wellTypedParameter])).1 (by norm_num) (by simp) (by simp) true
  · obtain ⟨c, hc, h1, _⟩ :=
      (C6_sound_speed_after_use_salinity_false { exampleConfig with speedOfSound := 1480 }
        [⟨"range", .double 1⟩] [⟨"range", .double 2⟩] [] 1700
        (by simp [wellTyped, wellTypedParameter])).2 (by norm_num)
        (by simp [writesSpeedOfSound, inRangeSoundSpeed])
    exact ⟨c, hc true, h1⟩

/-- Claim C16 (evaluation of the code): the delta `sound_speed = 1500`,
`range = 10` has distinct names and no `use_salinity` entry, so every order
keeps the relative order of the pair; processed as `sound_speed, range` with
the uninitialised local reading false it submits `speedOfSound = 1500`, and
processed as `range, sound_speed` with the local reading true it submits the
`0` of `currentConfig`. -/
theorem C16_order_changes_candidate_through_uninitialised_flag :
    wellTyped [⟨"sound_speed", .double 1500⟩, ⟨"range", .double 10⟩] ∧
    distinctNames [⟨"sound_speed", .double 1500⟩, ⟨"range", .double 10⟩] ∧
    List.Perm [⟨"sound_speed", .double 1500⟩, ⟨"range", .double 10⟩]
      ([⟨"range", .double 10⟩, ⟨"sound_speed", .double 1500⟩] : List Parameter) ∧
    List.filter isSalinityEntry [⟨"sound_speed", .double 1500⟩, ⟨"range", .double 10⟩]
      = List.filter isSalinityEntry [⟨"range", .double 10⟩, ⟨"sound_speed", .double 1500⟩] ∧
    newConfigOf false exampleConfig [⟨"sound_speed", .double 1500⟩, ⟨"range", .double 10⟩]
      = .ok { exampleConfig with range := 10, speedOfSound := 1500 } ∧
    newConfigOf true exampleConfig [⟨"range", .double 10⟩, ⟨"sound_speed", .double 1500⟩]
      = .ok { exampleConfig with range := 10, speedOfSound := 0 } :=
  ⟨by simp [wellTyped, wellTypedParameter], by simp [distinctNames], List.Perm.swap _ _ _,
    by simp [isSalinityEntry], rfl, rfl⟩

end OculusRos2
